import Mathlib

/-!
# Portfolio page script (`script.js`): navigation, theme and mobile-menu state

A shallow embedding of the stateful parts of `script.js`.

* The document is the list of its elements in tree order (preorder); an element
  reference (what `getElementById` / `querySelectorAll` hand back in JavaScript) is
  the index of the element in that list.  `depth` is the nesting depth, so that the
  descendants of an element are the maximal run of strictly deeper elements after it.
* `classList` is a `DOMTokenList`: an ordered list of class tokens.
* A JavaScript value that is either `null` or a string is an `Option String`.
* The session history is a zipper of URL fragments as the URL parser writes them
  (percent-encoded); `window.location.hash.substring(1)` is the fragment of the current
  entry.  The history is the one of the HTML standard, without a cap on its length.
* The preference store has room for a number of code units; a write that needs more
  raises.
* A function of the script that can raise (a `TypeError` on a `null` reference, or the
  exception of `localStorage.setItem`) returns the page as mutated so far together with
  a `Completion`.
-/

namespace Portfolio

/-! ## Data model -/

/-- One element of the document. `id = ""` stands for "no id attribute"
(`element.id` is `""` then); `dataSection = none` and `href = none` for "no
`data-section` attribute" and "no `href` attribute" (`getAttribute` returns `null`
then). -/
structure Element where
  tag : String
  depth : Nat
  id : String
  classList : List String
  dataSection : Option String
  href : Option String
  src : String
  styleTransform : String
  styleOpacity : String
deriving DecidableEq, Repr

/-- The global `state` object (lines 4-8). `currentSection` holds whatever
`navigateToSection` was called with, which can be `null` (a nav link without a
`data-section` attribute). -/
structure State where
  currentSection : Option String
  theme : String
  isMobileMenuOpen : Bool
deriving DecidableEq, Repr

/-- The preference store (`localStorage`), reduced to the one key the script uses.
`quota` is the number of code units the store has room for in the entry `theme`, key
and value together: what the other entries of the origin leave of the quota, `0` in a
privacy mode that refuses every write. -/
structure Storage where
  theme : Option String
  quota : Nat
deriving DecidableEq, Repr

/-- The session history: URL fragments of the entries behind the current one (most
recent first), of the current entry, and of the entries ahead of it. -/
structure History where
  back : List String
  current : String
  forward : List String
deriving DecidableEq, Repr

/-- Everything the script reads or writes. `dataTheme` is the `data-theme` attribute
of the root element, `bodyTransition` is `document.body.style.transition`, `scroll` is
`(scrollX, scrollY)`. -/
structure Page where
  state : State
  elements : List Element
  dataTheme : Option String
  bodyTransition : String
  store : Storage
  history : History
  scroll : Int × Int
deriving DecidableEq, Repr

/-- How a call ended: it returned, or it raised the named exception. -/
inductive Completion where
  | normal
  | thrown (name : String)
deriving DecidableEq, Repr

/-! ## Browser primitives -/

/-- `classList.remove(c)`. -/
def classListRemove (c : String) (l : List String) : List String :=
  l.filter (fun t => decide (t ≠ c))

/-- `classList.add(c)`: a token already present is not added again. -/
def classListAdd (c : String) (l : List String) : List String :=
  if c ∈ l then l else l ++ [c]

/-- `classList.toggle(c)`. -/
def classListToggle (c : String) (l : List String) : List String :=
  if c ∈ l then classListRemove c l else l ++ [c]

/-- `el.classList.remove(c)` on an element. -/
def Element.removeClass (c : String) (e : Element) : Element :=
  { e with classList := classListRemove c e.classList }

/-- `el.classList.add(c)` on an element. -/
def Element.addClass (c : String) (e : Element) : Element :=
  { e with classList := classListAdd c e.classList }

/-- `el.classList.toggle(c)` on an element. -/
def Element.toggleClass (c : String) (e : Element) : Element :=
  { e with classList := classListToggle c e.classList }

/-- `el.classList.contains(c)`. -/
def Element.hasClass (c : String) (e : Element) : Bool :=
  decide (c ∈ e.classList)

/-- Mutation of the element behind reference `i`. -/
def modifyAt {α : Type} (f : α → α) : Nat → List α → List α
  | _, [] => []
  | 0, e :: es => f e :: es
  | n + 1, e :: es => e :: modifyAt f n es

/-- Reference of the first element (in tree order) satisfying `q`, if any. -/
def findIndex {α : Type} (q : α → Bool) : List α → Option Nat
  | [] => none
  | e :: es => if q e then some 0 else (findIndex q es).map (fun i => i + 1)

/-- References of all elements satisfying `q`, in tree order: a static `NodeList`. -/
def indicesOf {α : Type} (q : α → Bool) (doc : List α) : List Nat :=
  (List.range doc.length).filter (fun i => (doc[i]?.map q).getD false)

/-- `nodeList.forEach(el => f(el))` where `f` mutates the element it is given. -/
def forEach {α : Type} (refs : List Nat) (f : α → α) (doc : List α) : List α :=
  refs.foldl (fun d i => modifyAt f i d) doc

/-- `document.getElementById(id)`: the first element with that id; the empty string
matches nothing. -/
def getElementById (doc : List Element) (id : String) : Option Nat :=
  if id = "" then none else findIndex (fun e => decide (e.id = id)) doc

/-- `document.querySelectorAll('.' + c)`. -/
def querySelectorAllClass (doc : List Element) (c : String) : List Nat :=
  indicesOf (fun e => e.hasClass c) doc

/-- `document.querySelector('.' + c)`. -/
def querySelectorClass (doc : List Element) (c : String) : Option Nat :=
  findIndex (fun e => e.hasClass c) doc

/-- References of the descendants of element `k`: the elements after it, as long as
they are strictly deeper. -/
def descendants (doc : List Element) (k : Nat) : List Nat :=
  match doc[k]? with
  | none => []
  | some e =>
    List.range' (k + 1) ((doc.drop (k + 1)).takeWhile (fun x => decide (e.depth < x.depth))).length

/-- `el.querySelectorAll(tag)` for the element behind reference `k`. -/
def querySelectorAllTagWithin (doc : List Element) (k : Nat) (tag : String) : List Nat :=
  (descendants doc k).filter (fun i => (doc[i]?.map (fun e => decide (e.tag = tag))).getD false)

/-- `el.querySelector(tag)` for the element behind reference `k`. -/
def querySelectorTagWithin (doc : List Element) (k : Nat) (tag : String) : Option Nat :=
  (querySelectorAllTagWithin doc k tag).head?

/-- String conversion of a `null`-or-string value, as done by `getElementById(v)` and
by a template literal. -/
def toStr : Option String → String
  | none => "null"
  | some s => s

/-- Code points the URL parser strips from the ends of its input: C0 controls and
space. -/
def isC0ControlOrSpace (c : Char) : Bool :=
  decide (c.toNat ≤ 0x20)

/-- Code points the URL parser removes from its input: tab, line feed, carriage
return. -/
def isTabOrNewline (c : Char) : Bool :=
  decide (c.toNat = 0x09 ∨ c.toNat = 0x0A ∨ c.toNat = 0x0D)

/-- The fragment percent-encode set of the URL standard: C0 controls, everything above
`~`, space, `"`, `<`, `>` and the backtick. -/
def inFragmentPercentEncodeSet (c : Char) : Bool :=
  decide (c.toNat ≤ 0x1F ∨ 0x7E < c.toNat ∨ c.toNat = 0x20 ∨ c.toNat = 0x22 ∨
    c.toNat = 0x3C ∨ c.toNat = 0x3E ∨ c.toNat = 0x60)

/-- An uppercase hexadecimal digit. -/
def hexDigit (n : Nat) : Char :=
  if n < 10 then Char.ofNat (48 + n) else Char.ofNat (55 + n)

/-- A byte, percent-encoded: `%` and two hexadecimal digits. -/
def percentEncodeByte (b : Nat) : List Char :=
  [Char.ofNat 37, hexDigit (b / 16), hexDigit (b % 16)]

/-- The bytes of the UTF-8 encoding of a code point. -/
def utf8Bytes (n : Nat) : List Nat :=
  if n < 0x80 then [n]
  else if n < 0x800 then [0xC0 + n / 64, 0x80 + n % 64]
  else if n < 0x10000 then [0xE0 + n / 4096, 0x80 + n / 64 % 64, 0x80 + n % 64]
  else [0xF0 + n / 262144, 0x80 + n / 4096 % 64, 0x80 + n / 64 % 64, 0x80 + n % 64]

/-- Percent-encoding of all bytes of a list. -/
def percentEncodeBytes : List Nat → List Char
  | [] => []
  | b :: bs => percentEncodeByte b ++ percentEncodeBytes bs

/-- A code point of a fragment as the URL parser writes it. -/
def percentEncodeChar (c : Char) : List Char :=
  if inFragmentPercentEncodeSet c then percentEncodeBytes (utf8Bytes c.toNat) else [c]

/-- The code points of a fragment as the URL parser writes them. -/
def percentEncodeChars : List Char → List Char
  | [] => []
  | c :: cs => percentEncodeChar c ++ percentEncodeChars cs

/-- The fragment of the URL that the URL parser makes of the input `'#' + s`: trailing
C0 controls and spaces are stripped, tabs and newlines removed, and the rest is
percent-encoded with the fragment percent-encode set. -/
def urlFragment (s : String) : String :=
  let stripped := (s.data.reverse.dropWhile isC0ControlOrSpace).reverse
  let cleaned := stripped.filter (fun c => !isTabOrNewline c)
  String.mk (percentEncodeChars cleaned)

/-- A string the URL parser leaves as it is when it is written as a fragment. -/
def isPlainFragment (s : String) : Bool :=
  s.data.all (fun c => !inFragmentPercentEncodeSet c)

/-- `s.substring(1)`. -/
def substring1 (s : String) : String :=
  String.mk (s.data.drop 1)

/-- `window.history.pushState(null, null, '#' + s)`: a new entry is added after the
current one and becomes current, with the fragment the URL parser makes of `s`; the
entries that were ahead are dropped. -/
def pushState (h : History) (s : String) : History :=
  { back := h.current :: h.back, current := urlFragment s, forward := [] }

/-- `window.history.length`. -/
def History.length (h : History) : Nat :=
  h.back.length + 1 + h.forward.length

/-- `localStorage.getItem('theme')`. -/
def getItem (s : Storage) : Option String :=
  s.theme

/-- `localStorage.setItem('theme', v)`: `none` when the store raises, which it does
when key and value need more room than it has. -/
def setItem (s : Storage) (v : String) : Option Storage :=
  if "theme".length + v.length ≤ s.quota then some { s with theme := some v } else none

/-! ## The script -/

/-- The initial value of `state` (lines 4-8): `getItem('theme') || 'light'`, where the
empty string is the only falsy string. -/
def initialState (s : Storage) : State :=
  { currentSection := some "home"
    theme := match getItem s with
      | none => "light"
      | some t => if t = "" then "light" else t
    isMobileMenuOpen := false }

/-- The page as the script finds it when it is loaded. -/
def pageLoad (doc : List Element) (dataTheme : Option String) (store : Storage)
    (history : History) : Page :=
  { state := initialState store
    elements := doc
    dataTheme := dataTheme
    bodyTransition := ""
    store := store
    history := history
    scroll := (0, 0) }

/-- `updateThemeIcon` (lines 28-43). `themeToggle.querySelector` raises when there is
no `#themeToggle`, `icon.classList` raises when it has no `i` descendant. -/
def updateThemeIcon (p : Page) : Page × Completion :=
  match getElementById p.elements "themeToggle" with
  | none => (p, .thrown "TypeError")
  | some themeToggle =>
    let icon := querySelectorTagWithin p.elements themeToggle "i"
    let logo := querySelectorClass p.elements "logo-icon"
    if p.state.theme = "dark" then
      match icon with
      | none => (p, .thrown "TypeError")
      | some icon =>
        let doc1 := modifyAt (Element.removeClass "fa-moon") icon p.elements
        let doc2 := modifyAt (Element.addClass "fa-sun") icon doc1
        match logo with
        | some logo =>
          ({ p with elements := modifyAt (fun e => { e with src := "public/icon_white.png" }) logo doc2 },
            .normal)
        | none => ({ p with elements := doc2 }, .normal)
    else
      match icon with
      | none => (p, .thrown "TypeError")
      | some icon =>
        let doc1 := modifyAt (Element.removeClass "fa-sun") icon p.elements
        let doc2 := modifyAt (Element.addClass "fa-moon") icon doc1
        match logo with
        | some logo =>
          ({ p with elements := modifyAt (fun e => { e with src := "public/icon.png" }) logo doc2 },
            .normal)
        | none => ({ p with elements := doc2 }, .normal)

/-- `initTheme` (lines 13-16). -/
def initTheme (p : Page) : Page × Completion :=
  updateThemeIcon { p with dataTheme := some p.state.theme }

/-- `toggleTheme` (lines 18-26). An exception of `setItem` or of `updateThemeIcon`
leaves the function at that point. -/
def toggleTheme (p : Page) : Page × Completion :=
  let theme := if p.state.theme = "light" then "dark" else "light"
  let p1 := { p with state := { p.state with theme := theme } }
  let p2 := { p1 with dataTheme := some p1.state.theme }
  match setItem p2.store p2.state.theme with
  | none => (p2, .thrown "QuotaExceededError")
  | some store =>
    match updateThemeIcon { p2 with store := store } with
    | (p3, .thrown err) => (p3, .thrown err)
    | (p3, .normal) =>
      ({ p3 with bodyTransition := "background-color 0.3s ease, color 0.3s ease" }, .normal)

/-- The callback of the `forEach` in `updateActiveNavLink` (lines 103-106). -/
def navLinkUpdate (sectionId : Option String) (link : Element) : Element :=
  let link1 := link.removeClass "active"
  if link1.dataSection = sectionId then link1.addClass "active" else link1

/-- `updateActiveNavLink` (lines 100-108). -/
def updateActiveNavLink (sectionId : Option String) (p : Page) : Page :=
  let navLinks := querySelectorAllClass p.elements "nav-link"
  { p with elements := forEach navLinks (navLinkUpdate sectionId) p.elements }

/-- `navigateToSection` (lines 77-98): every `.section` element loses `active`, then,
if an element with the requested id exists, the rest happens. -/
def navigateToSection (sectionId : Option String) (p : Page) : Page :=
  let sections := querySelectorAllClass p.elements "section"
  let p1 := { p with elements := forEach sections (Element.removeClass "active") p.elements }
  match getElementById p1.elements (toStr sectionId) with
  | some targetSection =>
    let p2 := { p1 with elements := modifyAt (Element.addClass "active") targetSection p1.elements }
    let p3 := { p2 with state := { p2.state with currentSection := sectionId } }
    let p4 := updateActiveNavLink sectionId p3
    let p5 := { p4 with history := pushState p4.history (toStr sectionId) }
    { p5 with scroll := (0, 0) }
  | none => p1

/-- The end of `initNavigation` (lines 72-74), the only part of it that runs at
startup: `window.location.hash.substring(1) || 'home'`. -/
def initNavigation (p : Page) : Page :=
  let initialHash := if p.history.current = "" then "home" else p.history.current
  navigateToSection (some initialHash) p

/-- The `hashchange` listener (lines 65-70), run after the browser has changed the
fragment. -/
def onHashChange (p : Page) : Page :=
  let hash := p.history.current
  if hash = "" then p else navigateToSection (some hash) p

/-- `spans[i].style.transform = v`, raising when `spans[i]` is `undefined`. -/
def setSpanTransform (spans : List Nat) (i : Nat) (v : String) (doc : List Element) :
    Option (List Element) :=
  match spans[i]? with
  | none => none
  | some r => some (modifyAt (fun e => { e with styleTransform := v }) r doc)

/-- `spans[i].style.opacity = v`, raising when `spans[i]` is `undefined`. -/
def setSpanOpacity (spans : List Nat) (i : Nat) (v : String) (doc : List Element) :
    Option (List Element) :=
  match spans[i]? with
  | none => none
  | some r => some (modifyAt (fun e => { e with styleOpacity := v }) r doc)

/-- `toggleMobileMenu` (lines 129-147). `menuToggle.querySelectorAll` raises before
the flag is flipped; `sidebar.classList` and `spans[i].style` raise after it. -/
def toggleMobileMenu (p : Page) : Page × Completion :=
  let sidebar := getElementById p.elements "sidebar"
  match getElementById p.elements "mobileMenuToggle" with
  | none => (p, .thrown "TypeError")
  | some menuToggle =>
    let spans := querySelectorAllTagWithin p.elements menuToggle "span"
    let p1 := { p with state := { p.state with isMobileMenuOpen := !p.state.isMobileMenuOpen } }
    match sidebar with
    | none => (p1, .thrown "TypeError")
    | some sidebar =>
      let p2 := { p1 with elements := modifyAt (Element.toggleClass "active") sidebar p1.elements }
      let t0 := if p2.state.isMobileMenuOpen then "rotate(45deg) translate(8px, 8px)" else ""
      let o1 := if p2.state.isMobileMenuOpen then "0" else ""
      let t2 := if p2.state.isMobileMenuOpen then "rotate(-45deg) translate(8px, -8px)" else ""
      match setSpanTransform spans 0 t0 p2.elements with
      | none => (p2, .thrown "TypeError")
      | some doc3 =>
        match setSpanOpacity spans 1 o1 doc3 with
        | none => ({ p2 with elements := doc3 }, .thrown "TypeError")
        | some doc4 =>
          match setSpanTransform spans 2 t2 doc4 with
          | none => ({ p2 with elements := doc4 }, .thrown "TypeError")
          | some doc5 => ({ p2 with elements := doc5 }, .normal)

/-- The click listener that `initNavigation` puts on the nav link behind reference
`link` (lines 52-61). -/
def navLinkClick (link : Nat) (p : Page) : Page × Completion :=
  let sectionId := (p.elements[link]?).bind (fun e => e.dataSection)
  let p1 := navigateToSection sectionId p
  if p1.state.isMobileMenuOpen then toggleMobileMenu p1 else (p1, .normal)

/-- Whether the anchor selector of `initSmoothScroll` (line 257) matches the element. -/
def Element.isHashAnchor (e : Element) : Bool :=
  decide (e.tag = "a") &&
    (match e.href with
     | none => false
     | some href => decide (href.data.head? = some (Char.ofNat 35)))

/-- The click listener that `initSmoothScroll` puts on the anchor behind reference
`anchor` (lines 258-265); the anchor has an `href`. -/
def smoothScrollClick (anchor : Nat) (p : Page) : Page :=
  match (p.elements[anchor]?).bind (fun e => e.href) with
  | none => p
  | some href =>
    if href ≠ "#" ∧ 1 < href.length then navigateToSection (some (substring1 href)) p else p

/-- `a.contains(b)`: `b` is `a` or one of its descendants. -/
def contains (doc : List Element) (a b : Nat) : Bool :=
  decide (a = b) || decide (b ∈ descendants doc a)

/-- The click listener that `initMobileMenu` puts on the document (lines 120-126), for
a click on the element behind reference `target`. -/
def documentClick (target : Nat) (p : Page) : Page × Completion :=
  if p.state.isMobileMenuOpen then
    match getElementById p.elements "sidebar" with
    | none => (p, .thrown "TypeError")
    | some sidebar =>
      if contains p.elements sidebar target then (p, .normal)
      else
        match getElementById p.elements "mobileMenuToggle" with
        | none => (p, .thrown "TypeError")
        | some menuToggle =>
          if contains p.elements menuToggle target then (p, .normal) else toggleMobileMenu p
  else (p, .normal)

/-- A click on the nav link behind reference `link`, once `init` has put its listeners
in place: the listener of `initNavigation`, then the one of `initSmoothScroll` if the
link is an anchor with a `#` href, then, as the event bubbles, the one of
`initMobileMenu` on the document. An exception raised by a listener is reported and
the next listener still runs. -/
def clickNavLink (link : Nat) (p : Page) : Page :=
  let p1 := (navLinkClick link p).1
  let p2 :=
    if ((p1.elements[link]?).map (fun e => e.isHashAnchor)).getD false then
      smoothScrollClick link p1
    else p1
  (documentClick link p2).1

/-- The callback of the section observer (lines 332-339) for one entry: `target` is
one of the observed `.section` elements. -/
def sectionObserverEntry (target : Nat) (isIntersecting : Bool) (p : Page) : Page :=
  match p.elements[target]? with
  | none => p
  | some el =>
    if isIntersecting && el.hasClass "active" then updateActiveNavLink (some el.id) p else p

/-- The callback of the section observer for a batch of entries. -/
def sectionObserver (entries : List (Nat × Bool)) (p : Page) : Page :=
  entries.foldl (fun q entry => sectionObserverEntry entry.1 entry.2 q) p

/-! ## Observables and the document contract -/

/-- Ids of the section elements that carry `active`, in tree order. -/
def activeSectionIds (doc : List Element) : List String :=
  (doc.filter (fun e => e.hasClass "section" && e.hasClass "active")).map (fun e => e.id)

/-- The `data-section` values of the nav links that carry `active`, in tree order. -/
def activeNavLinkTargets (doc : List Element) : List (Option String) :=
  (doc.filter (fun e => e.hasClass "nav-link" && e.hasClass "active")).map
    (fun e => e.dataSection)

/-- The section ids of the document (the view registry): the ids of its `.section`
elements. -/
def sectionIds (doc : List Element) : List String :=
  (doc.filter (fun e => e.hasClass "section" && decide (e.id ≠ ""))).map (fun e => e.id)

/-- The contract the document is expected to meet: no element is both a section and a
nav link, and for each section id exactly one element has that id and exactly one nav
link has it as `data-section`. -/
def domContract (doc : List Element) : Bool :=
  doc.all (fun e => !(e.hasClass "section" && e.hasClass "nav-link")) &&
  (sectionIds doc).all (fun s =>
    decide (doc.countP (fun x => decide (x.id = s)) = 1) &&
    decide (doc.countP (fun x => x.hasClass "nav-link" && decide (x.dataSection = some s)) = 1))

/-- What the document is expected to provide for the mobile menu: the toggle button
exists, and the side menu is not one of the sections. -/
def menuContract (doc : List Element) : Bool :=
  (getElementById doc "mobileMenuToggle").isSome && decide ("sidebar" ∉ sectionIds doc)

/-- The reference `updateThemeIcon` calls `icon`: the first `i` inside `#themeToggle`. -/
def iconRef (doc : List Element) : Option Nat :=
  (getElementById doc "themeToggle").bind (fun t => querySelectorTagWithin doc t "i")

/-- The reference `updateThemeIcon` calls `logo`. -/
def logoRef (doc : List Element) : Option Nat :=
  querySelectorClass doc "logo-icon"

/-- The icon and logo markers of a document. -/
def elementMarkers (doc : List Element) : Option (Bool × Bool) × Option String :=
  ((iconRef doc).bind (fun i =>
     doc[i]?.map (fun e => (e.hasClass "fa-moon", e.hasClass "fa-sun"))),
   (logoRef doc).bind (fun l => doc[l]?.map (fun e => e.src)))

/-- The theme display markers: the `data-theme` attribute, whether the icon carries
`fa-moon` and `fa-sun`, and the asset the logo refers to. -/
def themeMarkers (p : Page) : Option String × Option (Bool × Bool) × Option String :=
  (p.dataTheme, elementMarkers p.elements)

/-- Whether the side menu is shown: `#sidebar` carries `active`. -/
def sidebarShown (doc : List Element) : Bool :=
  match getElementById doc "sidebar" with
  | none => false
  | some sidebar => ((doc[sidebar]?).map (fun e => e.hasClass "active")).getD false

/-- The navigation invariant: at most one section is active, at most one nav link is
active, and every active nav link names an active section. -/
def navInvariant (doc : List Element) : Bool :=
  decide ((activeSectionIds doc).length ≤ 1) &&
  decide ((activeNavLinkTargets doc).length ≤ 1) &&
  (activeNavLinkTargets doc).all (fun t =>
    (activeSectionIds doc).any (fun s => decide (t = some s)))

/-- The pages reachable from the loaded page `p0`: startup runs `initNavigation`, then
come calls of `navigateToSection` with any string and callbacks of the section
observer for entries whose targets are `.section` elements. -/
inductive Reachable (p0 : Page) : Page → Prop where
  | startup : Reachable p0 (initNavigation p0)
  | navigate (id : String) (q : Page) : Reachable p0 q →
      Reachable p0 (navigateToSection (some id) q)
  | observe (entries : List (Nat × Bool)) (q : Page) : Reachable p0 q →
      (∀ entry ∈ entries, entry.1 ∈ querySelectorAllClass q.elements "section") →
      Reachable p0 (sectionObserver entries q)

/-! ## An example document -/

/-- An element with no `src` and no inline style; its `href`, if it is a nav link, is
`#` followed by its `data-section`. -/
def exampleElement (tag : String) (depth : Nat) (id : String) (classList : List String)
    (dataSection : Option String) : Element :=
  { tag := tag, depth := depth, id := id, classList := classList, dataSection := dataSection,
    href := dataSection.map (fun s => "#" ++ s),
    src := "", styleTransform := "", styleOpacity := "" }

/-- A small page of the expected form: header with logo, theme toggle and menu button,
a side menu with two nav links, and two sections of which `home` is shown. -/
def exampleDocument : List Element :=
  [ exampleElement "header" 0 "header" [] none,
    exampleElement "img" 1 "" ["logo-icon"] none,
    exampleElement "button" 1 "themeToggle" [] none,
    exampleElement "i" 2 "" ["fas", "fa-moon"] none,
    exampleElement "button" 1 "mobileMenuToggle" [] none,
    exampleElement "span" 2 "" [] none,
    exampleElement "span" 2 "" [] none,
    exampleElement "span" 2 "" [] none,
    exampleElement "aside" 0 "sidebar" ["sidebar"] none,
    exampleElement "a" 1 "" ["nav-link", "active"] (some "home"),
    exampleElement "a" 1 "" ["nav-link"] (some "about"),
    exampleElement "section" 0 "home" ["section", "active"] none,
    exampleElement "section" 0 "about" ["section"] none ]

/-- The example document as loaded with the given store and URL fragment, in a fresh
tab. -/
def examplePageWith (store : Storage) (fragment : String) : Page :=
  pageLoad exampleDocument none store { back := [], current := fragment, forward := [] }

/-- The example document loaded with an empty, working store. -/
def examplePage (fragment : String) : Page :=
  examplePageWith { theme := none, quota := 100 } fragment

/-- The example page after startup, with the mobile menu opened. -/
def openMenuPage : Page :=
  (toggleMobileMenu (initNavigation (examplePage ""))).1

/-- The example page after startup, then `navigateToSection('sidebar')` (what the
`hashchange` listener does for a hand-typed `#sidebar`), then a click on the menu
button, whose listener is `toggleMobileMenu`: the flag says the menu is open while
`#sidebar` does not carry `active`. -/
def desyncMenuPage : Page :=
  (toggleMobileMenu (navigateToSection (some "sidebar") (initNavigation (examplePage "")))).1

/-- The example page after `initTheme` when the store holds the theme `blue`. -/
def blueThemePage : Page :=
  (initTheme (examplePageWith { theme := some "blue", quota := 100 } "")).1

/-- The example page after `initTheme` when the store refuses writes. -/
def fullStorePage : Page :=
  (initTheme (examplePageWith { theme := none, quota := 0 } "")).1

/-- The example page after `initTheme` when the store has room for `theme` with `dark`
but not with `light`. -/
def tightStorePage : Page :=
  (initTheme (examplePageWith { theme := none, quota := 9 } "")).1

/-- A document meeting the contract with a section whose id is not plain ASCII. -/
def cafeDocument : List Element :=
  [ exampleElement "a" 0 "" ["nav-link", "active"] (some "home"),
    exampleElement "a" 0 "" ["nav-link"] (some "café"),
    exampleElement "section" 0 "home" ["section", "active"] none,
    exampleElement "section" 0 "café" ["section"] none ]

/-- The document `cafeDocument` as loaded without fragment, in a fresh tab. -/
def cafePage : Page :=
  pageLoad cafeDocument none { theme := none, quota := 100 }
    { back := [], current := "", forward := [] }

/-! ## Auxiliary definitions of the proofs -/

/-- The callback of the first `forEach` of `navigateToSection`, applied to the
elements of its node list only. -/
def clearSection (e : Element) : Element :=
  if e.hasClass "section" then e.removeClass "active" else e

/-- The callback of the `forEach` of `updateActiveNavLink`, applied to the elements of
its node list only. -/
def linkStep (sectionId : Option String) (e : Element) : Element :=
  if e.hasClass "nav-link" then navLinkUpdate sectionId e else e

/-- What `navigateToSection` does to one element when the requested id `s` belongs to
exactly one element. -/
def navStep (s : String) (e : Element) : Element :=
  linkStep (some s)
    (if (clearSection e).id = s then (clearSection e).addClass "active" else clearSection e)

/-- The element behind the target reference, after one call. -/
def navTarget (sid : Option String) (e : Element) : Element :=
  linkStep sid ((clearSection e).addClass "active")

/-- Any other element, after one call. -/
def navOther (sid : Option String) (e : Element) : Element :=
  linkStep sid (clearSection e)

/-- The two branches of `updateThemeIcon`, once `icon` is known to exist. -/
def applyTheme (dark : Bool) (icon : Nat) (logo : Option Nat) (doc : List Element) :
    List Element :=
  let doc2 := modifyAt (Element.addClass (if dark then "fa-sun" else "fa-moon")) icon
    (modifyAt (Element.removeClass (if dark then "fa-moon" else "fa-sun")) icon doc)
  match logo with
  | some logo =>
    modifyAt (fun e => { e with src := if dark then "public/icon_white.png" else "public/icon.png" })
      logo doc2
  | none => doc2

/-- Two documents that the lookups of the theme code cannot tell apart. -/
def SameShape (a b : List Element) : Prop :=
  a.map (fun e => e.depth) = b.map (fun e => e.depth) ∧
  a.map (fun e => e.tag) = b.map (fun e => e.tag) ∧
  a.map (fun e => e.id) = b.map (fun e => e.id) ∧
  a.map (fun e => e.hasClass "logo-icon") = b.map (fun e => e.hasClass "logo-icon")

/-- The elements after a theme update: `run` says whether `updateThemeIcon` is reached
at all, and it changes the document only if it finds its icon. -/
def themeStep (dark run : Bool) (doc : List Element) : List Element :=
  if run then
    match iconRef doc with
    | some icon => applyTheme dark icon (logoRef doc) doc
    | none => doc
  else doc

/-- The value `toggleTheme` gives to `state.theme`. -/
def flipTheme (theme : String) : String :=
  if theme = "light" then "dark" else "light"

/-- The asset `updateThemeIcon` gives to the logo. -/
def logoAsset (dark : Bool) : String :=
  if dark then "public/icon_white.png" else "public/icon.png"

/-- The contribution of one element to `activeSectionIds`. -/
def activeSectionKey (e : Element) : Option String :=
  if e.hasClass "section" && e.hasClass "active" then some e.id else none


/-! ## Lists of elements and references -/

section ListLemmas

variable {α β : Type}

theorem modifyAt_length (f : α → α) (i : Nat) (l : List α) :
    (modifyAt f i l).length = l.length := by
  induction l generalizing i with
  | nil => cases i <;> rfl
  | cons e es ih => cases i <;> simp [modifyAt, ih]

theorem modifyAt_getElem? (f : α → α) (i j : Nat) (l : List α) :
    (modifyAt f i l)[j]? = if j = i then l[j]?.map f else l[j]? := by
  induction l generalizing i j with
  | nil => cases i <;> simp [modifyAt]
  | cons e es ih =>
    cases i with
    | zero => cases j <;> simp [modifyAt]
    | succ n => cases j <;> simp [modifyAt, ih]

theorem modifyAt_map_of_invariant (k : α → β) (f : α → α) (hk : ∀ e, k (f e) = k e)
    (i : Nat) (l : List α) : (modifyAt f i l).map k = l.map k := by
  induction l generalizing i with
  | nil => cases i <;> rfl
  | cons e es ih => cases i <;> simp [modifyAt, ih, hk]

theorem foldl_modifyAt_getElem? (f : α → α) (refs : List Nat) (h : refs.Nodup)
    (l : List α) (j : Nat) :
    (refs.foldl (fun d i => modifyAt f i d) l)[j]? =
      if j ∈ refs then l[j]?.map f else l[j]? := by
  induction refs generalizing l with
  | nil => simp
  | cons i is ih =>
    have hnd := List.nodup_cons.mp h
    rw [List.foldl_cons, ih hnd.2, modifyAt_getElem?]
    by_cases hji : j = i
    · subst hji
      simp [hnd.1]
    · by_cases hj : j ∈ is <;> simp [hji, hj]

theorem mem_indicesOf (q : α → Bool) (l : List α) (i : Nat) :
    i ∈ indicesOf q l ↔ ∃ e, l[i]? = some e ∧ q e = true := by
  unfold indicesOf
  rw [List.mem_filter, List.mem_range]
  constructor
  · rintro ⟨hi, hq⟩
    rw [List.getElem?_eq_getElem hi] at hq
    exact ⟨l[i], List.getElem?_eq_getElem hi, by simpa using hq⟩
  · rintro ⟨e, he, hq⟩
    have hi : i < l.length := (List.getElem?_eq_some_iff.mp he).1
    exact ⟨hi, by simp [he, hq]⟩

theorem indicesOf_nodup (q : α → Bool) (l : List α) : (indicesOf q l).Nodup :=
  (List.nodup_range l.length).filter _

/-- A `forEach` over the static node list of the elements satisfying `q` changes
exactly those elements. -/
theorem forEach_indicesOf (q : α → Bool) (f : α → α) (l : List α) :
    forEach (indicesOf q l) f l = l.map (fun e => if q e then f e else e) := by
  apply List.ext_getElem?
  intro j
  unfold forEach
  rw [foldl_modifyAt_getElem? f _ (indicesOf_nodup q l), List.getElem?_map]
  have hmem := mem_indicesOf q l j
  cases hj : l[j]? with
  | none => simp
  | some e =>
    rw [hj] at hmem
    by_cases hq : q e = true
    · have : j ∈ indicesOf q l := hmem.mpr ⟨e, rfl, hq⟩
      simp [this, hq]
    · have : j ∉ indicesOf q l := fun hin => by
        obtain ⟨x, hx, hqx⟩ := hmem.mp hin
        cases hx
        exact hq hqx
      simp [this, hq]

theorem findIndex_map (q : β → Bool) (g : α → β) (l : List α) :
    findIndex q (l.map g) = findIndex (fun e => q (g e)) l := by
  induction l with
  | nil => rfl
  | cons e es ih => simp [findIndex, ih]

theorem findIndex_congr (q q' : α → Bool) (l : List α) (h : ∀ e ∈ l, q e = q' e) :
    findIndex q l = findIndex q' l := by
  induction l with
  | nil => rfl
  | cons e es ih =>
    have h1 := h e (List.mem_cons_self _ _)
    have h2 := ih (fun x hx => h x (List.mem_cons_of_mem _ hx))
    simp [findIndex, h1, h2]

theorem findIndex_modifyAt (q : α → Bool) (f : α → α) (hq : ∀ e, q (f e) = q e)
    (i : Nat) (l : List α) : findIndex q (modifyAt f i l) = findIndex q l := by
  induction l generalizing i with
  | nil => cases i <;> rfl
  | cons e es ih => cases i <;> simp [modifyAt, findIndex, ih, hq]

theorem findIndex_eq_some (q : α → Bool) (l : List α) (t : Nat) (h : findIndex q l = some t) :
    ∃ e, l[t]? = some e ∧ q e = true := by
  induction l generalizing t with
  | nil => simp [findIndex] at h
  | cons e es ih =>
    simp only [findIndex] at h
    by_cases hq : q e = true
    · simp [hq] at h
      subst h
      exact ⟨e, by simp, hq⟩
    · simp [hq] at h
      obtain ⟨a, ha, rfl⟩ := h
      obtain ⟨x, hx, hqx⟩ := ih a ha
      exact ⟨x, by simpa using hx, hqx⟩

theorem findIndex_isSome (q : α → Bool) (l : List α) (e : α) (he : e ∈ l) (hq : q e = true) :
    ∃ t, findIndex q l = some t := by
  induction l with
  | nil => cases he
  | cons x xs ih =>
    by_cases hx : q x = true
    · exact ⟨0, by simp [findIndex, hx]⟩
    · rcases List.mem_cons.mp he with rfl | hmem
      · exact absurd hq hx
      · obtain ⟨t, ht⟩ := ih hmem
        exact ⟨t + 1, by simp [findIndex, hx, ht]⟩

theorem findIndex_eq_none (q : α → Bool) (l : List α) (h : findIndex q l = none) :
    ∀ e ∈ l, q e = false := by
  intro e he
  by_contra hq
  obtain ⟨t, ht⟩ := findIndex_isSome q l e he (by simpa using hq)
  rw [h] at ht
  cases ht

/-- When exactly one element satisfies `q`, mutating the first such element is
mutating every such element. -/
theorem modifyAt_findIndex_of_unique (q : α → Bool) (f : α → α) (l : List α) (t : Nat)
    (ht : findIndex q l = some t) (hu : l.countP q = 1) :
    modifyAt f t l = l.map (fun e => if q e then f e else e) := by
  induction l generalizing t with
  | nil => simp [findIndex] at ht
  | cons e es ih =>
    by_cases hq : q e = true
    · simp [findIndex, hq] at ht
      subst ht
      have h0 : es.countP q = 0 := by
        rw [List.countP_cons_of_pos _ _ hq] at hu
        omega
      have hall : ∀ x ∈ es, ¬ q x = true := List.countP_eq_zero.mp h0
      have hmap : es.map (fun e => if q e then f e else e) = es := by
        conv_rhs => rw [← List.map_id es]
        apply List.map_congr_left
        intro x hx
        simp [hall x hx]
      simp [modifyAt, hq, hmap]
    · simp [findIndex, hq] at ht
      obtain ⟨a, ha, rfl⟩ := ht
      rw [List.countP_cons_of_neg _ _ hq] at hu
      simp [modifyAt, hq, ih a ha hu]

end ListLemmas

/-! ## URL fragments -/

theorem percentEncodeChars_of_plain (l : List Char)
    (h : ∀ c ∈ l, inFragmentPercentEncodeSet c = false) : percentEncodeChars l = l := by
  induction l with
  | nil => rfl
  | cons c cs ih =>
    have hc := h c (List.mem_cons_self _ _)
    have := ih (fun x hx => h x (List.mem_cons_of_mem _ hx))
    simp [percentEncodeChars, percentEncodeChar, hc, this]

theorem not_special_of_plain (c : Char) (h : inFragmentPercentEncodeSet c = false) :
    isC0ControlOrSpace c = false ∧ isTabOrNewline c = false := by
  unfold inFragmentPercentEncodeSet at h
  unfold isC0ControlOrSpace isTabOrNewline
  simp only [decide_eq_false_iff_not, not_or] at h ⊢
  omega

/-- The URL parser leaves a plain string as it is. -/
theorem urlFragment_of_plain (s : String) (h : isPlainFragment s = true) :
    urlFragment s = s := by
  have hall : ∀ c ∈ s.data, inFragmentPercentEncodeSet c = false := by
    intro c hc
    have := List.all_eq_true.mp h c hc
    simpa using this
  have hstrip : (s.data.reverse.dropWhile isC0ControlOrSpace).reverse = s.data := by
    have : s.data.reverse.dropWhile isC0ControlOrSpace = s.data.reverse := by
      cases hr : s.data.reverse with
      | nil => rfl
      | cons x xs =>
        have hx : x ∈ s.data := by
          have : x ∈ s.data.reverse := by rw [hr]; exact List.mem_cons_self _ _
          exact List.mem_reverse.mp this
        simp [List.dropWhile, (not_special_of_plain x (hall x hx)).1]
    rw [this, List.reverse_reverse]
  have hfilter : s.data.filter (fun c => !isTabOrNewline c) = s.data := by
    rw [List.filter_eq_self]
    intro c hc
    simp [(not_special_of_plain c (hall c hc)).2]
  unfold urlFragment
  simp only [hstrip, hfilter, percentEncodeChars_of_plain _ hall]

/-! ## Class lists -/

theorem mem_classListRemove (c t : String) (l : List String) :
    t ∈ classListRemove c l ↔ t ∈ l ∧ t ≠ c := by
  simp [classListRemove]

theorem mem_classListAdd (c t : String) (l : List String) :
    t ∈ classListAdd c l ↔ t ∈ l ∨ t = c := by
  unfold classListAdd
  split
  · constructor
    · exact Or.inl
    · rintro (h | rfl)
      · exact h
      · assumption
  · simp

theorem mem_classListToggle_of_ne (c t : String) (l : List String) (h : t ≠ c) :
    t ∈ classListToggle c l ↔ t ∈ l := by
  unfold classListToggle
  split
  · simp [mem_classListRemove, h]
  · simp [h]

theorem classListRemove_of_not_mem (c : String) (l : List String) (h : c ∉ l) :
    classListRemove c l = l := by
  unfold classListRemove
  rw [List.filter_eq_self]
  intro t ht
  have : t ≠ c := fun hc => h (hc ▸ ht)
  simpa using this

theorem not_mem_classListRemove (c : String) (l : List String) : c ∉ classListRemove c l := by
  simp [mem_classListRemove]

theorem classListRemove_append_self (c : String) (l : List String) :
    classListRemove c (l ++ [c]) = classListRemove c l := by
  simp [classListRemove]

theorem classListRemove_classListAdd (c : String) (l : List String) :
    classListRemove c (classListAdd c l) = classListRemove c l := by
  unfold classListAdd
  split
  · rfl
  · exact classListRemove_append_self c l

theorem classListAdd_classListRemove (c : String) (l : List String) :
    classListAdd c (classListRemove c l) = classListRemove c l ++ [c] := by
  simp [classListAdd, not_mem_classListRemove]

theorem classListAdd_of_mem (c : String) (l : List String) (h : c ∈ l) :
    classListAdd c l = l := by
  simp [classListAdd, h]

@[simp]
theorem Element.hasClass_removeClass (c t : String) (e : Element) :
    (e.removeClass c).hasClass t = (e.hasClass t && decide (t ≠ c)) := by
  simp [Element.hasClass, Element.removeClass, mem_classListRemove]

@[simp]
theorem Element.hasClass_addClass (c t : String) (e : Element) :
    (e.addClass c).hasClass t = (e.hasClass t || decide (t = c)) := by
  simp [Element.hasClass, Element.addClass, mem_classListAdd]

theorem Element.hasClass_toggleClass_of_ne (c t : String) (e : Element) (h : t ≠ c) :
    (e.toggleClass c).hasClass t = e.hasClass t := by
  simp [Element.hasClass, Element.toggleClass, mem_classListToggle_of_ne c t _ h]

@[simp]
theorem Element.id_removeClass (c : String) (e : Element) :
    (e.removeClass c).id = e.id := rfl

@[simp]
theorem Element.id_addClass (c : String) (e : Element) :
    (e.addClass c).id = e.id := rfl

@[simp]
theorem Element.dataSection_removeClass (c : String) (e : Element) :
    (e.removeClass c).dataSection = e.dataSection := rfl

@[simp]
theorem Element.dataSection_addClass (c : String) (e : Element) :
    (e.addClass c).dataSection = e.dataSection := rfl

/-! ## What `navigateToSection` does to the elements -/

@[simp]
theorem clearSection_id (e : Element) : (clearSection e).id = e.id := by
  unfold clearSection
  split <;> rfl

@[simp]
theorem clearSection_dataSection (e : Element) :
    (clearSection e).dataSection = e.dataSection := by
  unfold clearSection
  split <;> rfl

@[simp]
theorem navLinkUpdate_id (sid : Option String) (e : Element) :
    (navLinkUpdate sid e).id = e.id := by
  unfold navLinkUpdate
  simp only
  split <;> rfl

@[simp]
theorem linkStep_id (sid : Option String) (e : Element) : (linkStep sid e).id = e.id := by
  unfold linkStep
  split
  · exact navLinkUpdate_id sid e
  · rfl

theorem updateActiveNavLink_eq (sid : Option String) (p : Page) :
    updateActiveNavLink sid p = { p with elements := p.elements.map (linkStep sid) } := by
  unfold updateActiveNavLink querySelectorAllClass
  simp only [forEach_indicesOf]
  rfl

theorem getElementById_map (g : Element → Element) (hg : ∀ e, (g e).id = e.id)
    (doc : List Element) (id : String) :
    getElementById (doc.map g) id = getElementById doc id := by
  unfold getElementById
  split
  · rfl
  · rw [findIndex_map]
    simp [hg]

theorem getElementById_modifyAt (f : Element → Element) (hf : ∀ e, (f e).id = e.id)
    (i : Nat) (doc : List Element) (id : String) :
    getElementById (modifyAt f i doc) id = getElementById doc id := by
  unfold getElementById
  split
  · rfl
  · exact findIndex_modifyAt _ f (fun e => by simp [hf]) i doc

/-- A call with the id of an existing element. -/
theorem navigateToSection_of_some (sid : Option String) (p : Page) (t : Nat)
    (h : getElementById p.elements (toStr sid) = some t) :
    navigateToSection sid p =
      { p with
        state := { p.state with currentSection := sid }
        elements := (modifyAt (Element.addClass "active") t
          (p.elements.map clearSection)).map (linkStep sid)
        history := pushState p.history (toStr sid)
        scroll := (0, 0) } := by
  have h1 : getElementById (p.elements.map clearSection) (toStr sid) = some t := by
    rw [getElementById_map _ clearSection_id]
    exact h
  unfold navigateToSection querySelectorAllClass
  simp only [forEach_indicesOf]
  change (match getElementById (p.elements.map clearSection) (toStr sid) with
    | some targetSection => _
    | none => _) = _
  rw [h1]
  simp only [updateActiveNavLink_eq]
  rfl

/-- A call with an id that no element has. -/
theorem navigateToSection_of_none (sid : Option String) (p : Page)
    (h : getElementById p.elements (toStr sid) = none) :
    navigateToSection sid p = { p with elements := p.elements.map clearSection } := by
  have h1 : getElementById (p.elements.map clearSection) (toStr sid) = none := by
    rw [getElementById_map _ clearSection_id]
    exact h
  unfold navigateToSection querySelectorAllClass
  simp only [forEach_indicesOf]
  change (match getElementById (p.elements.map clearSection) (toStr sid) with
    | some targetSection => _
    | none => _) = _
  rw [h1]
  rfl

/-! ## Observables and the document contract -/

theorem filter_map_of_countP_one {α β : Type} (q : α → Bool) (g : α → β) (v : β) (l : List α)
    (h1 : l.countP q = 1) (hg : ∀ e ∈ l, q e = true → g e = v) :
    (l.filter q).map g = [v] := by
  rw [List.countP_eq_length_filter] at h1
  match hf : l.filter q, h1 with
  | [a], _ =>
    have ha : a ∈ l.filter q := by rw [hf]; exact List.mem_singleton_self a
    have := List.mem_filter.mp ha
    simp [hg a this.1 this.2]

theorem eq_of_countP_one {α : Type} (q : α → Bool) (l : List α) (h1 : l.countP q = 1)
    (a b : α) (ha : a ∈ l) (hb : b ∈ l) (hqa : q a = true) (hqb : q b = true) : a = b := by
  rw [List.countP_eq_length_filter] at h1
  match hf : l.filter q, h1 with
  | [c], _ =>
    have ha' : a ∈ l.filter q := List.mem_filter.mpr ⟨ha, hqa⟩
    have hb' : b ∈ l.filter q := List.mem_filter.mpr ⟨hb, hqb⟩
    rw [hf] at ha' hb'
    rw [List.mem_singleton.mp ha', List.mem_singleton.mp hb']

theorem navStep_id (s : String) (e : Element) : (navStep s e).id = e.id := by
  unfold navStep
  split <;> simp

theorem navStep_dataSection (s : String) (e : Element) :
    (navStep s e).dataSection = e.dataSection := by
  unfold navStep linkStep navLinkUpdate
  simp only
  split_ifs <;> simp

theorem navStep_navLink_active (s : String) (e : Element) :
    ((navStep s e).hasClass "nav-link" && (navStep s e).hasClass "active") =
      (e.hasClass "nav-link" && decide (e.dataSection = some s)) := by
  unfold navStep linkStep navLinkUpdate clearSection
  simp only
  split_ifs <;> simp_all

theorem navStep_section_active (s : String) (e : Element)
    (hdisj : (e.hasClass "section" && e.hasClass "nav-link") = false) :
    ((navStep s e).hasClass "section" && (navStep s e).hasClass "active") =
      (e.hasClass "section" && decide (e.id = s)) := by
  unfold navStep linkStep navLinkUpdate clearSection
  simp only
  split_ifs <;> simp_all

theorem mem_sectionIds (doc : List Element) (s : String) :
    s ∈ sectionIds doc ↔ ∃ e ∈ doc, e.hasClass "section" = true ∧ e.id = s ∧ s ≠ "" := by
  unfold sectionIds
  simp only [List.mem_map, List.mem_filter, Bool.and_eq_true, decide_eq_true_eq]
  constructor
  · rintro ⟨e, ⟨he, hsec, hid⟩, rfl⟩
    exact ⟨e, he, hsec, rfl, hid⟩
  · rintro ⟨e, he, hsec, rfl, hid⟩
    exact ⟨e, ⟨he, hsec, hid⟩, rfl⟩

/-- The facts the contract gives about a section id. -/
theorem domContract_section (doc : List Element) (hc : domContract doc = true) (s : String)
    (hs : s ∈ sectionIds doc) :
    (∀ e ∈ doc, (e.hasClass "section" && e.hasClass "nav-link") = false) ∧
    doc.countP (fun x => decide (x.id = s)) = 1 ∧
    doc.countP (fun x => x.hasClass "nav-link" && decide (x.dataSection = some s)) = 1 := by
  unfold domContract at hc
  rw [Bool.and_eq_true, List.all_eq_true, List.all_eq_true] at hc
  refine ⟨fun e he => ?_, ?_, ?_⟩
  · have := hc.1 e he
    revert this
    cases e.hasClass "section" <;> cases e.hasClass "nav-link" <;> simp
  · have := hc.2 s hs
    simp only [Bool.and_eq_true, decide_eq_true_eq] at this
    exact this.1
  · have := hc.2 s hs
    simp only [Bool.and_eq_true, decide_eq_true_eq] at this
    exact this.2

theorem getElementById_of_mem (doc : List Element) (s : String) (hs : s ≠ "") (e : Element)
    (he : e ∈ doc) (hid : e.id = s) : ∃ t, getElementById doc s = some t := by
  unfold getElementById
  rw [if_neg hs]
  exact findIndex_isSome _ doc e he (by simpa using hid)

/-- On a document meeting the contract, a call with a section id rewrites every
element by `navStep`. -/
theorem navigateToSection_of_section (p : Page) (s : String)
    (hc : domContract p.elements = true) (hs : s ∈ sectionIds p.elements) :
    navigateToSection (some s) p =
      { p with
        state := { p.state with currentSection := some s }
        elements := p.elements.map (navStep s)
        history := pushState p.history s
        scroll := (0, 0) } := by
  obtain ⟨e0, he0, -, hid0, hne⟩ := (mem_sectionIds _ _).mp hs
  obtain ⟨-, hu, -⟩ := domContract_section _ hc s hs
  obtain ⟨t, ht⟩ := getElementById_of_mem p.elements s hne e0 he0 hid0
  rw [navigateToSection_of_some (some s) p t ht]
  have ht' : findIndex (fun e => decide (e.id = s)) (p.elements.map clearSection) = some t := by
    have := ht
    rw [← getElementById_map clearSection clearSection_id] at this
    unfold getElementById at this
    rwa [if_neg hne] at this
  have hu' : (p.elements.map clearSection).countP (fun e => decide (e.id = s)) = 1 := by
    rw [List.countP_map]
    have : ((fun e : Element => decide (e.id = s)) ∘ clearSection) =
        (fun e => decide (e.id = s)) := by
      funext e
      simp
    rw [this]
    exact hu
  rw [modifyAt_findIndex_of_unique _ (Element.addClass "active") _ t ht' hu']
  simp only [toStr, List.map_map]
  congr 1
  apply List.map_congr_left
  intro e _
  simp [navStep]

/-- Postcondition of `navigateToSection` on a document meeting the contract, for a
section id. -/
theorem navigateToSection_post (p : Page) (s : String)
    (hc : domContract p.elements = true) (hs : s ∈ sectionIds p.elements) :
    activeSectionIds (navigateToSection (some s) p).elements = [s] ∧
    activeNavLinkTargets (navigateToSection (some s) p).elements = [some s] ∧
    (navigateToSection (some s) p).state.currentSection = some s ∧
    (navigateToSection (some s) p).history.current = urlFragment s ∧
    (navigateToSection (some s) p).scroll = (0, 0) ∧
    (navigateToSection (some s) p).state.isMobileMenuOpen = p.state.isMobileMenuOpen := by
  rw [navigateToSection_of_section p s hc hs]
  obtain ⟨e0, he0, hsec0, hid0, hne⟩ := (mem_sectionIds _ _).mp hs
  obtain ⟨hdisj, hu, hn⟩ := domContract_section _ hc s hs
  refine ⟨?_, ?_, rfl, rfl, rfl, rfl⟩
  · simp only [activeSectionIds, List.filter_map, List.map_map]
    have hfilter : p.elements.filter
        ((fun e => e.hasClass "section" && e.hasClass "active") ∘ navStep s) =
        p.elements.filter (fun e => decide (e.id = s)) := by
      apply List.filter_congr
      intro e he
      simp only [Function.comp]
      rw [navStep_section_active s e (hdisj e he)]
      by_cases hid : e.id = s
      · have : e = e0 := eq_of_countP_one _ _ hu e e0 he he0 (by simpa using hid)
          (by simpa using hid0)
        subst this
        simp [hsec0, hid]
      · simp [hid]
    rw [hfilter]
    apply filter_map_of_countP_one _ _ _ _ hu
    intro e _ hq
    simpa [navStep_id] using hq
  · simp only [activeNavLinkTargets, List.filter_map, List.map_map]
    have hfilter : p.elements.filter
        ((fun e => e.hasClass "nav-link" && e.hasClass "active") ∘ navStep s) =
        p.elements.filter
          (fun e => e.hasClass "nav-link" && decide (e.dataSection = some s)) := by
      apply List.filter_congr
      intro e _
      simp only [Function.comp]
      exact navStep_navLink_active s e
    rw [hfilter]
    apply filter_map_of_countP_one _ _ _ _ hn
    intro e _ hq
    simp only [Bool.and_eq_true, decide_eq_true_eq] at hq
    simpa [navStep_dataSection] using hq.2

/-! ## Repeating a call -/

theorem classListRemove_classListRemove (c : String) (l : List String) :
    classListRemove c (classListRemove c l) = classListRemove c l :=
  classListRemove_of_not_mem c _ (not_mem_classListRemove c l)

theorem classListAdd_classListAdd (c : String) (l : List String) :
    classListAdd c (classListAdd c l) = classListAdd c l :=
  classListAdd_of_mem c _ ((mem_classListAdd c c l).mpr (Or.inr rfl))

theorem navTarget_navTarget (sid : Option String) (e : Element) :
    navTarget sid (navTarget sid e) = navTarget sid e := by
  unfold navTarget linkStep navLinkUpdate clearSection
  simp only
  split_ifs <;>
    simp_all [Element.addClass, Element.removeClass, Element.hasClass, mem_classListRemove,
      mem_classListAdd, classListRemove_classListRemove, classListAdd_classListAdd,
      classListRemove_classListAdd, classListAdd_classListRemove, classListRemove_append_self]

theorem navOther_navOther (sid : Option String) (e : Element) :
    navOther sid (navOther sid e) = navOther sid e := by
  unfold navOther linkStep navLinkUpdate clearSection
  simp only
  split_ifs <;>
    simp_all [Element.addClass, Element.removeClass, Element.hasClass, mem_classListRemove,
      mem_classListAdd, classListRemove_classListRemove, classListAdd_classListAdd,
      classListRemove_classListAdd, classListAdd_classListRemove, classListRemove_append_self]

theorem navigateToSection_getElem? (sid : Option String) (p : Page) (t : Nat)
    (h : getElementById p.elements (toStr sid) = some t) (j : Nat) :
    (navigateToSection sid p).elements[j]? =
      p.elements[j]?.map (if j = t then navTarget sid else navOther sid) := by
  rw [navigateToSection_of_some sid p t h]
  simp only [List.getElem?_map, modifyAt_getElem?]
  by_cases hj : j = t
  · simp only [hj, if_true, Option.map_map]
    rfl
  · simp only [hj, if_false, Option.map_map]
    rfl

theorem navigateToSection_getElementById (sid : Option String) (p : Page) (id : String) :
    getElementById (navigateToSection sid p).elements id = getElementById p.elements id := by
  cases h : getElementById p.elements (toStr sid) with
  | none =>
    rw [navigateToSection_of_none sid p h]
    exact getElementById_map _ clearSection_id _ _
  | some t =>
    rw [navigateToSection_of_some sid p t h]
    simp only
    rw [getElementById_map _ (linkStep_id sid),
      getElementById_modifyAt _ (Element.id_addClass "active"),
      getElementById_map _ clearSection_id]

/-- Calling `navigateToSection` again with the same id of an existing element changes
nothing but the history, which gets one more entry. -/
theorem navigateToSection_twice (sid : Option String) (p : Page) (t : Nat)
    (h : getElementById p.elements (toStr sid) = some t) :
    navigateToSection sid (navigateToSection sid p) =
      { navigateToSection sid p with
        history := pushState (navigateToSection sid p).history (toStr sid) } := by
  have h' : getElementById (navigateToSection sid p).elements (toStr sid) = some t := by
    rw [navigateToSection_getElementById]
    exact h
  have hel : (navigateToSection sid (navigateToSection sid p)).elements =
      (navigateToSection sid p).elements := by
    apply List.ext_getElem?
    intro j
    rw [navigateToSection_getElem? sid _ t h' j, navigateToSection_getElem? sid p t h j]
    cases p.elements[j]? with
    | none => rfl
    | some e =>
      by_cases hj : j = t
      · simp [hj, navTarget_navTarget]
      · simp [hj, navOther_navOther]
  have h1 := navigateToSection_of_some sid (navigateToSection sid p) t h'
  rw [h1] at hel ⊢
  simp only at hel
  rw [hel]
  rw [navigateToSection_of_some sid p t h]

/-! ## Theme -/

theorem getElem?_map_of_map_eq {β : Type} (g : Element → β) (a b : List Element)
    (h : a.map g = b.map g) (i : Nat) : a[i]?.map g = b[i]?.map g := by
  rw [← List.getElem?_map, ← List.getElem?_map, h]

theorem findIndex_of_map_eq {β : Type} (g : Element → β) (q : β → Bool) (a b : List Element)
    (h : a.map g = b.map g) :
    findIndex (fun e => q (g e)) a = findIndex (fun e => q (g e)) b := by
  rw [← findIndex_map q g a, ← findIndex_map q g b, h]

theorem descendants_of_map_eq (a b : List Element)
    (h : a.map (fun e => e.depth) = b.map (fun e => e.depth)) (k : Nat) :
    descendants a k = descendants b k := by
  have hk := getElem?_map_of_map_eq _ a b h k
  have hlen : ∀ d : Nat,
      ((a.drop (k + 1)).takeWhile (fun x => decide (d < x.depth))).length =
      ((b.drop (k + 1)).takeWhile (fun x => decide (d < x.depth))).length := by
    intro d
    have e1 : ∀ l : List Element,
        ((l.drop (k + 1)).takeWhile (fun x => decide (d < x.depth))).length =
        (((l.map (fun e => e.depth)).drop (k + 1)).takeWhile (fun x => decide (d < x))).length := by
      intro l
      rw [← List.map_drop, List.takeWhile_map, List.length_map]
      rfl
    rw [e1 a, e1 b, h]
  unfold descendants
  cases ha : a[k]? with
  | none =>
    cases hb : b[k]? with
    | none => rfl
    | some y => rw [ha, hb] at hk; cases hk
  | some x =>
    cases hb : b[k]? with
    | none => rw [ha, hb] at hk; cases hk
    | some y =>
      rw [ha, hb] at hk
      have hd : x.depth = y.depth := by simpa using hk
      simp only [hd, hlen]

theorem SameShape.iconRef_eq {a b : List Element} (h : SameShape a b) :
    iconRef a = iconRef b := by
  obtain ⟨hd, ht, hi, -⟩ := h
  have hget : getElementById a "themeToggle" = getElementById b "themeToggle" := by
    unfold getElementById
    simp only [show ("themeToggle" : String) ≠ "" by decide, if_false]
    exact findIndex_of_map_eq (fun e => e.id) (fun s => decide (s = "themeToggle")) a b hi
  have hq : ∀ k, querySelectorTagWithin a k "i" = querySelectorTagWithin b k "i" := by
    intro k
    unfold querySelectorTagWithin querySelectorAllTagWithin
    rw [descendants_of_map_eq a b hd k]
    congr 1
    apply List.filter_congr
    intro i _
    have := getElem?_map_of_map_eq _ a b ht i
    cases hai : a[i]? <;> cases hbi : b[i]? <;> rw [hai, hbi] at this <;> simp_all
  unfold iconRef
  rw [hget]
  cases getElementById b "themeToggle" with
  | none => rfl
  | some t => exact hq t

theorem SameShape.logoRef_eq {a b : List Element} (h : SameShape a b) :
    logoRef a = logoRef b :=
  findIndex_of_map_eq (fun e => e.hasClass "logo-icon") (fun x => x) a b h.2.2.2

theorem SameShape.refl (a : List Element) : SameShape a a := ⟨rfl, rfl, rfl, rfl⟩

theorem SameShape.trans {a b c : List Element} (h1 : SameShape a b) (h2 : SameShape b c) :
    SameShape a c :=
  ⟨h1.1.trans h2.1, h1.2.1.trans h2.2.1, h1.2.2.1.trans h2.2.2.1, h1.2.2.2.trans h2.2.2.2⟩

theorem SameShape.of_modifyAt (f : Element → Element) (i : Nat) (a : List Element)
    (hd : ∀ e, (f e).depth = e.depth) (ht : ∀ e, (f e).tag = e.tag)
    (hi : ∀ e, (f e).id = e.id)
    (hl : ∀ e, (f e).hasClass "logo-icon" = e.hasClass "logo-icon") :
    SameShape (Portfolio.modifyAt f i a) a :=
  ⟨modifyAt_map_of_invariant _ f hd i a, modifyAt_map_of_invariant _ f ht i a,
    modifyAt_map_of_invariant _ f hi i a, modifyAt_map_of_invariant _ f hl i a⟩

theorem applyTheme_sameShape (dark : Bool) (icon : Nat) (logo : Option Nat)
    (doc : List Element) : SameShape (applyTheme dark icon logo doc) doc := by
  have h1 : SameShape
      (Portfolio.modifyAt (Element.removeClass (if dark then "fa-moon" else "fa-sun")) icon doc)
      doc :=
    SameShape.of_modifyAt (Element.removeClass (if dark then "fa-moon" else "fa-sun")) icon doc
      (fun _ => rfl) (fun _ => rfl) (fun _ => rfl) (fun e => by cases dark <;> simp)
  have h2 : SameShape
      (Portfolio.modifyAt (Element.addClass (if dark then "fa-sun" else "fa-moon")) icon
        (Portfolio.modifyAt (Element.removeClass (if dark then "fa-moon" else "fa-sun")) icon doc))
      doc :=
    SameShape.trans
      (SameShape.of_modifyAt (Element.addClass (if dark then "fa-sun" else "fa-moon")) icon _
        (fun _ => rfl) (fun _ => rfl) (fun _ => rfl) (fun e => by cases dark <;> simp))
      h1
  cases logo with
  | none => exact h2
  | some l =>
    exact SameShape.trans
      (SameShape.of_modifyAt
        (fun e => { e with src := if dark then "public/icon_white.png" else "public/icon.png" })
        l _ (fun _ => rfl) (fun _ => rfl) (fun _ => rfl) (fun _ => rfl))
      h2

theorem updateThemeIcon_eq (p : Page) :
    updateThemeIcon p =
      match iconRef p.elements with
      | none => (p, .thrown "TypeError")
      | some icon =>
        ({ p with elements := (applyTheme (decide (p.state.theme = "dark")) icon
            (logoRef p.elements) p.elements) }, .normal) := by
  unfold updateThemeIcon iconRef logoRef applyTheme
  cases getElementById p.elements "themeToggle" with
  | none => rfl
  | some t =>
    simp only [Option.some_bind]
    cases querySelectorTagWithin p.elements t "i" with
    | none => by_cases hd : p.state.theme = "dark" <;> simp [hd]
    | some ic =>
      by_cases hd : p.state.theme = "dark" <;>
        cases querySelectorClass p.elements "logo-icon" <;> simp [hd]

theorem updateThemeIcon_fst (p : Page) :
    (updateThemeIcon p).1 =
      { p with elements := themeStep (decide (p.state.theme = "dark")) true p.elements } := by
  rw [updateThemeIcon_eq]
  unfold themeStep
  cases iconRef p.elements <;> rfl

theorem initTheme_fst (p : Page) :
    (initTheme p).1 =
      { p with
        dataTheme := some p.state.theme
        elements := themeStep (decide (p.state.theme = "dark")) true p.elements } := by
  unfold initTheme
  rw [updateThemeIcon_fst]

theorem setItem_quota (s t : Storage) (v : String) (h : setItem s v = some t) :
    t.quota = s.quota := by
  unfold setItem at h
  split at h
  · cases h
    rfl
  · cases h

theorem setItem_isSome_of_quota_eq (s t : Storage) (v : String) (h : t.quota = s.quota) :
    (setItem t v).isSome = (setItem s v).isSome := by
  unfold setItem
  rw [h]

theorem toggleTheme_eq (p : Page) :
    toggleTheme p =
      match setItem p.store (flipTheme p.state.theme) with
      | none =>
        ({ p with
            state := { p.state with theme := flipTheme p.state.theme }
            dataTheme := some (flipTheme p.state.theme) }, .thrown "QuotaExceededError")
      | some store =>
        match iconRef p.elements with
        | none =>
          ({ p with
              state := { p.state with theme := flipTheme p.state.theme }
              dataTheme := some (flipTheme p.state.theme)
              store := store },
            .thrown "TypeError")
        | some icon =>
          ({ p with
              state := { p.state with theme := flipTheme p.state.theme }
              dataTheme := some (flipTheme p.state.theme)
              store := store
              elements := (applyTheme (decide (flipTheme p.state.theme = "dark")) icon
                (logoRef p.elements) p.elements)
              bodyTransition := "background-color 0.3s ease, color 0.3s ease" }, .normal) := by
  unfold toggleTheme
  simp only
  have hflip : (if p.state.theme = "light" then "dark" else "light") =
      flipTheme p.state.theme := rfl
  simp only [hflip]
  cases setItem p.store (flipTheme p.state.theme) with
  | none => rfl
  | some store =>
    simp only
    rw [updateThemeIcon_eq]
    simp only
    cases iconRef p.elements <;> rfl

theorem toggleTheme_fst (p : Page) :
    (toggleTheme p).1.state.theme = flipTheme p.state.theme ∧
    (toggleTheme p).1.dataTheme = some (flipTheme p.state.theme) ∧
    (toggleTheme p).1.store.quota = p.store.quota ∧
    (toggleTheme p).1.elements =
      themeStep (decide (flipTheme p.state.theme = "dark"))
        (setItem p.store (flipTheme p.state.theme)).isSome p.elements := by
  rw [toggleTheme_eq]
  cases hw : setItem p.store (flipTheme p.state.theme) with
  | none => simp [themeStep]
  | some store =>
    have hq := setItem_quota _ _ _ hw
    simp only [themeStep, Option.isSome_some, if_true]
    cases iconRef p.elements with
    | none => simp [hq]
    | some ic => simp [hq]

theorem themeStep_sameShape (dark run : Bool) (doc : List Element) :
    SameShape (themeStep dark run doc) doc := by
  unfold themeStep
  cases run with
  | false => exact SameShape.refl doc
  | true =>
    simp only [if_true]
    cases iconRef doc with
    | none => exact SameShape.refl doc
    | some ic => exact applyTheme_sameShape dark ic _ doc

theorem iconRef_valid (doc : List Element) (ic : Nat) (h : iconRef doc = some ic) :
    ∃ e, doc[ic]? = some e := by
  unfold iconRef at h
  cases ht : getElementById doc "themeToggle" with
  | none => rw [ht] at h; cases h
  | some t =>
    rw [ht] at h
    simp only [Option.some_bind, querySelectorTagWithin, querySelectorAllTagWithin] at h
    have hmem := List.mem_of_mem_head? h
    have hq := (List.mem_filter.mp hmem).2
    cases hic : doc[ic]? with
    | none => rw [hic] at hq; simp at hq
    | some e => exact ⟨e, rfl⟩

theorem logoRef_valid (doc : List Element) (l : Nat) (h : logoRef doc = some l) :
    ∃ e, doc[l]? = some e := by
  obtain ⟨e, he, -⟩ := findIndex_eq_some _ doc l h
  exact ⟨e, he⟩

theorem applyTheme_icon (dark : Bool) (ic : Nat) (logo : Option Nat) (doc : List Element)
    (e : Element) (he : doc[ic]? = some e) :
    (applyTheme dark ic logo doc)[ic]?.map
      (fun e => (e.hasClass "fa-moon", e.hasClass "fa-sun")) = some (!dark, dark) := by
  unfold applyTheme
  cases logo with
  | none =>
    simp only [modifyAt_getElem?, if_true, he, Option.map_some']
    cases dark <;> simp
  | some l =>
    simp only [modifyAt_getElem?, if_true, he, Option.map_some']
    by_cases hl : ic = l
    · simp only [hl, if_true, Option.map_some']
      cases dark <;> simp [Element.hasClass, Element.addClass, Element.removeClass,
        mem_classListAdd, mem_classListRemove]
    · simp only [hl, if_false, Option.map_some']
      cases dark <;> simp

theorem applyTheme_logo (dark : Bool) (ic l : Nat) (doc : List Element)
    (e : Element) (he : doc[l]? = some e) :
    (applyTheme dark ic (some l) doc)[l]?.map (fun e => e.src) = some (logoAsset dark) := by
  unfold applyTheme logoAsset
  simp only [modifyAt_getElem?, if_true, he]
  by_cases hl : l = ic
  · simp [hl, Element.addClass, Element.removeClass]
  · simp [hl, he]

theorem elementMarkers_themeStep (dark : Bool) (doc : List Element) (ic : Nat)
    (hic : iconRef doc = some ic) :
    elementMarkers (themeStep dark true doc) =
      (some (!dark, dark), (logoRef doc).map (fun _ => logoAsset dark)) := by
  have hs := themeStep_sameShape dark true doc
  unfold elementMarkers
  rw [hs.iconRef_eq, hs.logoRef_eq, hic]
  simp only [themeStep, if_true, hic, Option.some_bind]
  obtain ⟨e, he⟩ := iconRef_valid doc ic hic
  rw [applyTheme_icon dark ic _ doc e he]
  cases hl : logoRef doc with
  | none => rfl
  | some l =>
    obtain ⟨x, hx⟩ := logoRef_valid doc l hl
    simp only [Option.some_bind, Option.map_some']
    rw [applyTheme_logo dark ic l doc x hx]

theorem themeStep_of_iconRef_none (dark run : Bool) (doc : List Element)
    (h : iconRef doc = none) : themeStep dark run doc = doc := by
  unfold themeStep
  cases run <;> simp [h]

theorem elementMarkers_themeStep_twice (d : Bool) (doc : List Element) :
    elementMarkers (themeStep d true (themeStep d true doc)) =
      elementMarkers (themeStep d true doc) := by
  have hs1 := themeStep_sameShape d true doc
  cases hic : iconRef doc with
  | none =>
    have h1 : themeStep d true doc = doc := themeStep_of_iconRef_none _ _ _ hic
    rw [h1, h1]
  | some ic =>
    have hic1 : iconRef (themeStep d true doc) = some ic := by
      rw [hs1.iconRef_eq, hic]
    rw [elementMarkers_themeStep d _ ic hic1, elementMarkers_themeStep d doc ic hic,
      hs1.logoRef_eq]

/-- Three theme updates in a row, the first and the last for the same mode, leave the
markers of the first, unless the second is reached and the third is not. -/
theorem elementMarkers_round_trip (d d' run1 run2 : Bool) (h : run1 = true → run2 = true)
    (doc : List Element) :
    elementMarkers (themeStep d run2 (themeStep d' run1 (themeStep d true doc))) =
      elementMarkers (themeStep d true doc) := by
  cases run1 with
  | false =>
    cases run2 with
    | false => simp [themeStep]
    | true =>
      have h0 : themeStep d' false (themeStep d true doc) = themeStep d true doc := by
        simp [themeStep]
      rw [h0]
      exact elementMarkers_themeStep_twice d doc
  | true =>
    rw [h rfl]
    have hs1 := themeStep_sameShape d true doc
    have hs2 := themeStep_sameShape d' true (themeStep d true doc)
    cases hic : iconRef doc with
    | none =>
      have h1 : themeStep d true doc = doc := themeStep_of_iconRef_none _ _ _ hic
      have h2 : themeStep d' true doc = doc := themeStep_of_iconRef_none _ _ _ hic
      rw [h1, h2, h1]
    | some ic =>
      have hic2 : iconRef (themeStep d' true (themeStep d true doc)) = some ic := by
        rw [hs2.iconRef_eq, hs1.iconRef_eq, hic]
      rw [elementMarkers_themeStep d _ ic hic2, elementMarkers_themeStep d doc ic hic,
        hs2.logoRef_eq, hs1.logoRef_eq]

/-! ## Mobile menu -/

theorem activeSectionIds_eq_filterMap (doc : List Element) :
    activeSectionIds doc = doc.filterMap activeSectionKey := by
  unfold activeSectionIds
  induction doc with
  | nil => rfl
  | cons e es ih =>
    by_cases h : (e.hasClass "section" && e.hasClass "active") = true
    · simp only [List.filter_cons, h, if_true, List.map_cons, ih, List.filterMap_cons,
        activeSectionKey]
    · simp only [List.filter_cons, h, Bool.false_eq_true, if_false, ih, List.filterMap_cons,
        activeSectionKey]

theorem filterMap_modifyAt {α β : Type} (k : α → Option β) (f : α → α) (i : Nat) (l : List α)
    (h : ∀ e, l[i]? = some e → k (f e) = k e) :
    (modifyAt f i l).filterMap k = l.filterMap k := by
  induction l generalizing i with
  | nil => cases i <;> rfl
  | cons e es ih =>
    cases i with
    | zero =>
      have := h e (by simp)
      simp [modifyAt, List.filterMap_cons, this]
    | succ n =>
      have := ih n (fun x hx => h x (by simpa using hx))
      simp [modifyAt, List.filterMap_cons, this]

theorem activeSectionIds_modifyAt (f : Element → Element) (i : Nat) (doc : List Element)
    (h : ∀ e, doc[i]? = some e → activeSectionKey (f e) = activeSectionKey e) :
    activeSectionIds (modifyAt f i doc) = activeSectionIds doc := by
  rw [activeSectionIds_eq_filterMap, activeSectionIds_eq_filterMap]
  exact filterMap_modifyAt _ f i doc h

theorem activeSectionIds_setSpanTransform (spans : List Nat) (i : Nat) (v : String)
    (doc doc' : List Element) (h : setSpanTransform spans i v doc = some doc') :
    activeSectionIds doc' = activeSectionIds doc := by
  unfold setSpanTransform at h
  cases hs : spans[i]? with
  | none => rw [hs] at h; cases h
  | some r =>
    rw [hs] at h
    cases h
    exact activeSectionIds_modifyAt _ r doc (fun _ _ => rfl)

theorem activeSectionIds_setSpanOpacity (spans : List Nat) (i : Nat) (v : String)
    (doc doc' : List Element) (h : setSpanOpacity spans i v doc = some doc') :
    activeSectionIds doc' = activeSectionIds doc := by
  unfold setSpanOpacity at h
  cases hs : spans[i]? with
  | none => rw [hs] at h; cases h
  | some r =>
    rw [hs] at h
    cases h
    exact activeSectionIds_modifyAt _ r doc (fun _ _ => rfl)

theorem getElementById_spec (doc : List Element) (id : String) (t : Nat)
    (h : getElementById doc id = some t) : ∃ e, doc[t]? = some e ∧ e.id = id ∧ id ≠ "" := by
  unfold getElementById at h
  by_cases hid : id = ""
  · rw [if_pos hid] at h
    cases h
  · rw [if_neg hid] at h
    obtain ⟨e, he, hq⟩ := findIndex_eq_some _ doc t h
    exact ⟨e, he, by simpa using hq, hid⟩

theorem not_section_of_not_mem_sectionIds (doc : List Element) (id : String) (t : Nat)
    (e : Element) (hn : id ∉ sectionIds doc) (h : getElementById doc id = some t)
    (he : doc[t]? = some e) : e.hasClass "section" = false := by
  obtain ⟨x, hx, hid, hne⟩ := getElementById_spec doc id t h
  rw [he] at hx
  cases hx
  by_contra hsec
  exact hn ((mem_sectionIds doc id).mpr
    ⟨e, List.mem_iff_getElem?.mpr ⟨t, he⟩, by simpa using hsec, hid, hne⟩)

/-- When the toggle button exists and the side menu is not a section,
`toggleMobileMenu` flips the flag and leaves the active sections alone, whether or not
it raises afterwards. -/
theorem toggleMobileMenu_spec (p : Page) (hm : menuContract p.elements = true) :
    (toggleMobileMenu p).1.state =
      { p.state with isMobileMenuOpen := !p.state.isMobileMenuOpen } ∧
    activeSectionIds (toggleMobileMenu p).1.elements = activeSectionIds p.elements := by
  unfold menuContract at hm
  rw [Bool.and_eq_true, decide_eq_true_eq] at hm
  obtain ⟨hmt, hsb⟩ := hm
  obtain ⟨mt, hmt⟩ := Option.isSome_iff_exists.mp hmt
  unfold toggleMobileMenu
  simp only [hmt]
  cases hside : getElementById p.elements "sidebar" with
  | none => exact ⟨rfl, rfl⟩
  | some sb =>
    simp only
    have hsbar : activeSectionIds (modifyAt (Element.toggleClass "active") sb p.elements) =
        activeSectionIds p.elements := by
      apply activeSectionIds_modifyAt
      intro e he
      have hns := not_section_of_not_mem_sectionIds _ _ sb e hsb hside he
      have hns' : (e.toggleClass "active").hasClass "section" = false := by
        rw [Element.hasClass_toggleClass_of_ne "active" "section" e (by decide)]
        exact hns
      simp [activeSectionKey, hns, hns']
    generalize hsp : querySelectorAllTagWithin p.elements mt "span" = spans
    cases h0 : setSpanTransform spans 0
        (if (!p.state.isMobileMenuOpen) = true then "rotate(45deg) translate(8px, 8px)" else "")
        (modifyAt (Element.toggleClass "active") sb p.elements) with
    | none => exact ⟨rfl, hsbar⟩
    | some doc3 =>
      have h3 := activeSectionIds_setSpanTransform _ _ _ _ _ h0
      simp only
      cases h1 : setSpanOpacity spans 1
          (if (!p.state.isMobileMenuOpen) = true then "0" else "") doc3 with
      | none => exact ⟨rfl, h3.trans hsbar⟩
      | some doc4 =>
        have h4 := activeSectionIds_setSpanOpacity _ _ _ _ _ h1
        simp only
        cases h2 : setSpanTransform spans 2
            (if (!p.state.isMobileMenuOpen) = true then "rotate(-45deg) translate(8px, -8px)"
              else "") doc4 with
        | none => exact ⟨rfl, h4.trans (h3.trans hsbar)⟩
        | some doc5 =>
          have h5 := activeSectionIds_setSpanTransform _ _ _ _ _ h2
          exact ⟨rfl, h5.trans (h4.trans (h3.trans hsbar))⟩

theorem navStep_hasClass_section (s : String) (e : Element) :
    (navStep s e).hasClass "section" = e.hasClass "section" := by
  unfold navStep linkStep navLinkUpdate clearSection
  simp only
  split_ifs <;> simp_all

theorem sectionIds_map_navStep (s : String) (doc : List Element) :
    sectionIds (doc.map (navStep s)) = sectionIds doc := by
  unfold sectionIds
  rw [List.filter_map, List.map_map]
  have hf : ((fun e : Element => e.hasClass "section" && decide (e.id ≠ "")) ∘ navStep s) =
      (fun e => e.hasClass "section" && decide (e.id ≠ "")) := by
    funext e
    simp [navStep_hasClass_section, navStep_id]
  have hg : ((fun e : Element => e.id) ∘ navStep s) = (fun e => e.id) := by
    funext e
    simp [navStep_id]
  rw [hf, hg]

theorem menuContract_navigateToSection (p : Page) (s : String)
    (hc : domContract p.elements = true) (hs : s ∈ sectionIds p.elements)
    (hm : menuContract p.elements = true) :
    menuContract (navigateToSection (some s) p).elements = true := by
  unfold menuContract at hm ⊢
  rw [navigateToSection_getElementById]
  rw [navigateToSection_of_section p s hc hs]
  simp only [sectionIds_map_navStep]
  exact hm

/-- The click listener of a nav link whose `data-section` is a section id, on a
document meeting the contracts. -/
theorem navLinkClick_spec (p : Page) (s : String) (link : Nat)
    (hc : domContract p.elements = true) (hm : menuContract p.elements = true)
    (hs : s ∈ sectionIds p.elements)
    (hds : (p.elements[link]?).bind (fun e => e.dataSection) = some s) :
    activeSectionIds (navLinkClick link p).1.elements = [s] ∧
    (navLinkClick link p).1.state.currentSection = some s ∧
    (navLinkClick link p).1.state.isMobileMenuOpen = false := by
  obtain ⟨hact, -, hcur, -, -, hopen⟩ := navigateToSection_post p s hc hs
  have hm' := menuContract_navigateToSection p s hc hs hm
  unfold navLinkClick
  simp only [hds]
  cases ho : (navigateToSection (some s) p).state.isMobileMenuOpen with
  | false =>
    simp only [Bool.false_eq_true, if_false]
    exact ⟨hact, hcur, ho⟩
  | true =>
    simp only [if_true]
    obtain ⟨hst, hel⟩ := toggleMobileMenu_spec (navigateToSection (some s) p) hm'
    refine ⟨hel.trans hact, ?_, ?_⟩
    · rw [hst]
      exact hcur
    · rw [hst]
      simp [ho]

/-! ## The claims -/

/-- Claim C1, evaluated on the example page after startup: no element has the id
`bogus`, and `navigateToSection('bogus')` keeps `state.currentSection`, the active nav
links and the history, but the `home` section that was active before the call is not
active after it: no section is. -/
theorem navigateToSection_unknown_id_clears_sections :
    getElementById (initNavigation (examplePage "")).elements "bogus" = none ∧
    activeSectionIds (initNavigation (examplePage "")).elements = ["home"] ∧
    activeSectionIds
      (navigateToSection (some "bogus") (initNavigation (examplePage ""))).elements = [] ∧
    (navigateToSection (some "bogus") (initNavigation (examplePage ""))).state =
      (initNavigation (examplePage "")).state ∧
    activeNavLinkTargets
      (navigateToSection (some "bogus") (initNavigation (examplePage ""))).elements =
      activeNavLinkTargets (initNavigation (examplePage "")).elements ∧
    (navigateToSection (some "bogus") (initNavigation (examplePage ""))).history =
      (initNavigation (examplePage "")).history := by
  decide

/-- Claim C2 as stated fails: the document `cafeDocument` meets the contract and `café`
is one of its section ids, but after `navigateToSection('café')` the fragment is
`caf%C3%A9`, the percent-encoded id, and not the id. -/
theorem navigateToSection_fragment_is_encoded :
    domContract cafePage.elements = true ∧
    "café" ∈ sectionIds cafePage.elements ∧
    (navigateToSection (some "café") cafePage).history.current = "caf%C3%A9" ∧
    (navigateToSection (some "café") cafePage).history.current ≠ "café" := by
  decide

/-- Claim C2, amended: on a document meeting the contract (no element is both a section
and a nav link; each section id is the id of exactly one element and the `data-section`
of exactly one nav link), after `navigateToSection(s)` for a section id `s` exactly one
section is active and its id is `s`, exactly one nav link is active and its
`data-section` is `s`, `state.currentSection` is `s`, the scroll position is `(0, 0)`,
and the fragment is `s` as the URL parser writes it, which is `s` itself when `s` has
no character that the parser strips or percent-encodes. -/
theorem navigateToSection_valid (p : Page) (s : String)
    (hc : domContract p.elements = true) (hs : s ∈ sectionIds p.elements) :
    activeSectionIds (navigateToSection (some s) p).elements = [s] ∧
    activeNavLinkTargets (navigateToSection (some s) p).elements = [some s] ∧
    (navigateToSection (some s) p).state.currentSection = some s ∧
    (navigateToSection (some s) p).history.current = urlFragment s ∧
    (isPlainFragment s = true → (navigateToSection (some s) p).history.current = s) ∧
    (navigateToSection (some s) p).scroll = (0, 0) := by
  obtain ⟨h1, h2, h3, h4, h5, -⟩ := navigateToSection_post p s hc hs
  exact ⟨h1, h2, h3, h4, fun hp => h4.trans (urlFragment_of_plain s hp), h5⟩

/-- Witness of `navigateToSection_valid`: the example page, section `about`. -/
theorem navigateToSection_valid_witness :
    (domContract (examplePage "").elements = true ∧
      "about" ∈ sectionIds (examplePage "").elements ∧
      isPlainFragment "about" = true) ∧
    activeSectionIds (navigateToSection (some "about") (examplePage "")).elements = ["about"] ∧
    activeNavLinkTargets (navigateToSection (some "about") (examplePage "")).elements =
      [some "about"] ∧
    (navigateToSection (some "about") (examplePage "")).state.currentSection = some "about" ∧
    (navigateToSection (some "about") (examplePage "")).history.current = "about" ∧
    (navigateToSection (some "about") (examplePage "")).scroll = (0, 0) :=
  have h := navigateToSection_valid (examplePage "") "about" (by decide) (by decide)
  ⟨⟨by decide, by decide, by decide⟩, h.1, h.2.1, h.2.2.1, h.2.2.2.2.1 (by decide),
    h.2.2.2.2.2⟩

/-- Claim C3 as stated fails: on the example page `about` is a section id, and the
history has one entry before `navigateToSection('about')` and two after it. -/
theorem navigateToSection_history_length_changes :
    "about" ∈ sectionIds (examplePage "").elements ∧
    (examplePage "").history.length = 1 ∧
    (navigateToSection (some "about") (examplePage "")).history.length = 2 := by
  decide

/-- Claim C3, amended: a call of `navigateToSection(s)` with the id of an existing
element pushes a history entry: the entry that was current is kept behind the new one,
the new current entry has the fragment the URL parser makes of `s`, the entries that
were ahead are dropped, and the history is one entry longer than the part up to the
old current entry. -/
theorem navigateToSection_pushes_entry (p : Page) (s : String) (t : Nat)
    (h : getElementById p.elements s = some t) :
    (navigateToSection (some s) p).history =
      { back := p.history.current :: p.history.back, current := urlFragment s,
        forward := [] } ∧
    (navigateToSection (some s) p).history.length = p.history.back.length + 1 + 1 := by
  rw [navigateToSection_of_some (some s) p t h]
  exact ⟨rfl, rfl⟩

/-- Witness of `navigateToSection_pushes_entry`: the example page, section `about`. -/
theorem navigateToSection_pushes_entry_witness :
    getElementById (examplePage "").elements "about" = some 12 ∧
    (navigateToSection (some "about") (examplePage "")).history =
      { back := (examplePage "").history.current :: (examplePage "").history.back,
        current := urlFragment "about", forward := [] } ∧
    (navigateToSection (some "about") (examplePage "")).history.length =
      (examplePage "").history.back.length + 1 + 1 :=
  ⟨by decide, navigateToSection_pushes_entry (examplePage "") "about" 12 (by decide)⟩

/-- Claim C4 as stated fails: on the example page, calling `navigateToSection('about')`
twice leaves a history different from the one after a single call (three entries
instead of two). -/
theorem navigateToSection_twice_history_differs :
    "about" ∈ sectionIds (examplePage "").elements ∧
    (navigateToSection (some "about")
      (navigateToSection (some "about") (examplePage ""))).history ≠
      (navigateToSection (some "about") (examplePage "")).history ∧
    (navigateToSection (some "about")
      (navigateToSection (some "about") (examplePage ""))).history.length = 3 ∧
    (navigateToSection (some "about") (examplePage "")).history.length = 2 := by
  decide

/-- Claim C4, amended: calling `navigateToSection(s)` a second time with the id of an
existing element leaves `state`, every element (so all active markings), the scroll
position and the fragment as they are after the first call; only the history differs,
by one more pushed entry for `s`. -/
theorem navigateToSection_idempotent_up_to_history (p : Page) (s : String) (t : Nat)
    (h : getElementById p.elements s = some t) :
    navigateToSection (some s) (navigateToSection (some s) p) =
      { navigateToSection (some s) p with
        history := pushState (navigateToSection (some s) p).history s } ∧
    (navigateToSection (some s) (navigateToSection (some s) p)).history.current =
      (navigateToSection (some s) p).history.current := by
  have h2 := navigateToSection_twice (some s) p t h
  refine ⟨h2, ?_⟩
  rw [h2, navigateToSection_of_some (some s) p t h]
  rfl

/-- Witness of `navigateToSection_idempotent_up_to_history`: the example page, section
`about`. -/
theorem navigateToSection_idempotent_up_to_history_witness :
    getElementById (examplePage "").elements "about" = some 12 ∧
    navigateToSection (some "about") (navigateToSection (some "about") (examplePage "")) =
      { navigateToSection (some "about") (examplePage "") with
        history := pushState (navigateToSection (some "about") (examplePage "")).history
          "about" } ∧
    (navigateToSection (some "about")
      (navigateToSection (some "about") (examplePage ""))).history.current =
      (navigateToSection (some "about") (examplePage "")).history.current :=
  ⟨by decide,
    navigateToSection_idempotent_up_to_history (examplePage "") "about" 12 (by decide)⟩

/-- Claim C5, evaluated: the example document meets the contract and the page after
startup satisfies the invariant, but the page reached from it by
`navigateToSection('bogus')` does not: the nav link for `home` is still active and no
section is. -/
theorem reachable_page_breaks_navInvariant :
    domContract (examplePage "").elements = true ∧
    navInvariant (initNavigation (examplePage "")).elements = true ∧
    Reachable (examplePage "")
      (navigateToSection (some "bogus") (initNavigation (examplePage ""))) ∧
    navInvariant
      (navigateToSection (some "bogus") (initNavigation (examplePage ""))).elements = false ∧
    activeNavLinkTargets
      (navigateToSection (some "bogus") (initNavigation (examplePage ""))).elements =
      [some "home"] ∧
    activeSectionIds
      (navigateToSection (some "bogus") (initNavigation (examplePage ""))).elements = [] :=
  ⟨by decide, by decide, Reachable.navigate "bogus" _ Reachable.startup, by decide, by decide,
    by decide⟩

/-- Claim C6, evaluated: the example page loaded with the fragment `bogus`, which is
the id of no element. Before `initNavigation` the `home` section is the active one;
after it `state.currentSection` is still `home` but no section is active. -/
theorem initNavigation_unknown_fragment_shows_nothing :
    getElementById (examplePage "bogus").elements "bogus" = none ∧
    activeSectionIds (examplePage "bogus").elements = ["home"] ∧
    (initNavigation (examplePage "bogus")).state.currentSection = some "home" ∧
    activeSectionIds (initNavigation (examplePage "bogus")).elements = [] := by
  decide

/-- Claim C7: on a page whose document meets the contract, if the fragment at load
time is a section id `s`, then after `initNavigation` the one active section is `s`,
the one active nav link is the one for `s` and `state.currentSection` is `s`; if the
fragment is empty and `home` is a section id, the same holds for `home`. -/
theorem initNavigation_initial_section (p : Page) (hc : domContract p.elements = true) :
    (∀ s, s ∈ sectionIds p.elements → p.history.current = s →
      activeSectionIds (initNavigation p).elements = [s] ∧
      activeNavLinkTargets (initNavigation p).elements = [some s] ∧
      (initNavigation p).state.currentSection = some s) ∧
    (p.history.current = "" → "home" ∈ sectionIds p.elements →
      activeSectionIds (initNavigation p).elements = ["home"] ∧
      activeNavLinkTargets (initNavigation p).elements = [some "home"] ∧
      (initNavigation p).state.currentSection = some "home") := by
  constructor
  · intro s hs hcur
    have hne : s ≠ "" := by
      obtain ⟨_, _, _, _, hne⟩ := (mem_sectionIds _ _).mp hs
      exact hne
    unfold initNavigation
    simp only [hcur, hne, if_false]
    obtain ⟨h1, h2, h3, -⟩ := navigateToSection_post p s hc hs
    exact ⟨h1, h2, h3⟩
  · intro hcur hs
    unfold initNavigation
    simp only [hcur, if_true]
    obtain ⟨h1, h2, h3, -⟩ := navigateToSection_post p "home" hc hs
    exact ⟨h1, h2, h3⟩

/-- Witness of `initNavigation_initial_section`: the example page loaded with the
fragment `about`, and loaded without fragment. -/
theorem initNavigation_initial_section_witness :
    (domContract (examplePage "about").elements = true ∧
      "about" ∈ sectionIds (examplePage "about").elements ∧
      "home" ∈ sectionIds (examplePage "").elements) ∧
    (activeSectionIds (initNavigation (examplePage "about")).elements = ["about"] ∧
      activeNavLinkTargets (initNavigation (examplePage "about")).elements = [some "about"] ∧
      (initNavigation (examplePage "about")).state.currentSection = some "about") ∧
    (activeSectionIds (initNavigation (examplePage "")).elements = ["home"] ∧
      activeNavLinkTargets (initNavigation (examplePage "")).elements = [some "home"] ∧
      (initNavigation (examplePage "")).state.currentSection = some "home") :=
  ⟨⟨by decide, by decide, by decide⟩,
    (initNavigation_initial_section (examplePage "about") (by decide)).1 "about"
      (by decide) rfl,
    (initNavigation_initial_section (examplePage "") (by decide)).2 rfl (by decide)⟩

/-- Claim C8 as stated fails. With the theme `blue` read from the store at startup,
two calls of `toggleTheme` after `initTheme` leave `state.theme` at `dark`, not `blue`,
and the markers differ from those after `initTheme`. And with the theme `light` and a
store that has room for `dark` but not for `light`, the second call raises at its
write: `state.theme` is `light` again, but the icon and the logo keep the dark
markers. -/
theorem toggleTheme_twice_not_round_trip :
    (blueThemePage.state.theme = "blue" ∧
      (toggleTheme (toggleTheme blueThemePage).1).1.state.theme = "dark" ∧
      (toggleTheme (toggleTheme blueThemePage).1).2 = .normal ∧
      themeMarkers (toggleTheme (toggleTheme blueThemePage).1).1 ≠
        themeMarkers blueThemePage) ∧
    (tightStorePage.state.theme = "light" ∧
      (toggleTheme tightStorePage).2 = .normal ∧
      (toggleTheme (toggleTheme tightStorePage).1).2 = .thrown "QuotaExceededError" ∧
      (toggleTheme (toggleTheme tightStorePage).1).1.state.theme = "light" ∧
      themeMarkers tightStorePage =
        (some "light", some (true, false), some "public/icon.png") ∧
      themeMarkers (toggleTheme (toggleTheme tightStorePage).1).1 =
        (some "light", some (false, true), some "public/icon_white.png")) := by
  decide

/-- Claim C8, amended: when `state.theme` is `light` or `dark` and the store does not
accept the write of the first call and refuse the write of the second (so when it
accepts both, or refuses both), two calls of `toggleTheme` after `initTheme` leave
`state.theme` and the theme display markers (`data-theme`, the icon's
`fa-moon`/`fa-sun`, the logo asset) as they are after `initTheme`. -/
theorem toggleTheme_round_trip (p : Page)
    (ht : p.state.theme = "light" ∨ p.state.theme = "dark")
    (hw : (setItem p.store (flipTheme p.state.theme)).isSome = true →
      (setItem p.store p.state.theme).isSome = true) :
    (toggleTheme (toggleTheme (initTheme p).1).1).1.state.theme = (initTheme p).1.state.theme ∧
    themeMarkers (toggleTheme (toggleTheme (initTheme p).1).1).1 =
      themeMarkers (initTheme p).1 := by
  obtain ⟨a1, a2, a3, a4⟩ := toggleTheme_fst (initTheme p).1
  obtain ⟨b1, b2, b3, b4⟩ := toggleTheme_fst (toggleTheme (initTheme p).1).1
  have hI := initTheme_fst p
  have hIt : (initTheme p).1.state.theme = p.state.theme := by rw [hI]
  have hId : (initTheme p).1.dataTheme = some p.state.theme := by rw [hI]
  have hIs : (initTheme p).1.store = p.store := by rw [hI]
  have hIe : (initTheme p).1.elements =
      themeStep (decide (p.state.theme = "dark")) true p.elements := by rw [hI]
  have hff : flipTheme (flipTheme p.state.theme) = p.state.theme := by
    rcases ht with h | h <;> rw [h] <;> decide
  have htheme : (toggleTheme (toggleTheme (initTheme p).1).1).1.state.theme = p.state.theme := by
    rw [b1, a1, hIt, hff]
  have hrun2 : (setItem (toggleTheme (initTheme p).1).1.store p.state.theme).isSome =
      (setItem p.store p.state.theme).isSome :=
    setItem_isSome_of_quota_eq _ _ _ (by rw [a3, hIs])
  refine ⟨by rw [htheme, hIt], ?_⟩
  unfold themeMarkers
  rw [b2, b4, a1, a4, hIt, hff, hId, hIs, hIe, hrun2]
  rw [elementMarkers_round_trip _ _ _ _ hw]

/-- Witness of `toggleTheme_round_trip`: the example page, whose theme is `light` and
whose store accepts both writes. -/
theorem toggleTheme_round_trip_witness :
    (((examplePage "").state.theme = "light" ∨ (examplePage "").state.theme = "dark") ∧
      (setItem (examplePage "").store (flipTheme (examplePage "").state.theme)).isSome = true ∧
      (setItem (examplePage "").store (examplePage "").state.theme).isSome = true) ∧
    (toggleTheme (toggleTheme (initTheme (examplePage "")).1).1).1.state.theme =
      (initTheme (examplePage "")).1.state.theme ∧
    themeMarkers (toggleTheme (toggleTheme (initTheme (examplePage "")).1).1).1 =
      themeMarkers (initTheme (examplePage "")).1 :=
  ⟨⟨Or.inl (by decide), by decide, by decide⟩,
    toggleTheme_round_trip (examplePage "") (Or.inl (by decide)) (fun _ => by decide)⟩

/-- Claim C9 as stated fails: on the example page with a store that refuses writes,
`toggleTheme` raises the store's exception; the mode is flipped to `dark`, but the icon
still carries `fa-moon` and the logo still refers to the light asset. -/
theorem toggleTheme_raises_on_full_store :
    setItem fullStorePage.store "dark" = none ∧
    fullStorePage.state.theme = "light" ∧
    (toggleTheme fullStorePage).2 = .thrown "QuotaExceededError" ∧
    (toggleTheme fullStorePage).1.state.theme = "dark" ∧
    elementMarkers (toggleTheme fullStorePage).1.elements =
      (some (true, false), some "public/icon.png") := by
  decide

/-- Claim C9, amended: when the store write fails, `toggleTheme` raises the store's
exception after it has flipped the mode and set `data-theme` to the new mode; nothing
else changes, so the icon and the logo keep the markers of the old mode. -/
theorem toggleTheme_store_failure (p : Page)
    (h : setItem p.store (flipTheme p.state.theme) = none) :
    toggleTheme p =
      ({ p with
          state := { p.state with theme := flipTheme p.state.theme }
          dataTheme := some (flipTheme p.state.theme) },
        .thrown "QuotaExceededError") := by
  rw [toggleTheme_eq, h]

/-- Witness of `toggleTheme_store_failure`: the example page with a store that refuses
writes. -/
theorem toggleTheme_store_failure_witness :
    setItem fullStorePage.store (flipTheme fullStorePage.state.theme) = none ∧
    toggleTheme fullStorePage =
      ({ fullStorePage with
          state := { fullStorePage.state with theme := flipTheme fullStorePage.state.theme }
          dataTheme := some (flipTheme fullStorePage.state.theme) },
        .thrown "QuotaExceededError") :=
  ⟨by decide, toggleTheme_store_failure fullStorePage (by decide)⟩

/-- Claim C10, evaluated. On the example page with the menu opened after startup, a
click on the nav link for `about` shows `about` and hides the side menu. On
`desyncMenuPage`, which meets the same contracts and has `isMobileMenuOpen` true while
`#sidebar` does not carry `active`, the same click shows `about` and leaves
`isMobileMenuOpen` false, without any listener raising, but `#sidebar` carries `active`
afterwards: the side menu is shown, not closed. -/
theorem clickNavLink_shows_side_menu :
    (openMenuPage.state.isMobileMenuOpen = true ∧
      sidebarShown openMenuPage.elements = true ∧
      (clickNavLink 10 openMenuPage).state.isMobileMenuOpen = false ∧
      sidebarShown (clickNavLink 10 openMenuPage).elements = false) ∧
    (domContract desyncMenuPage.elements = true ∧
      menuContract desyncMenuPage.elements = true ∧
      "about" ∈ sectionIds desyncMenuPage.elements ∧
      10 ∈ querySelectorAllClass desyncMenuPage.elements "nav-link" ∧
      (desyncMenuPage.elements[10]?).bind (fun e => e.dataSection) = some "about" ∧
      desyncMenuPage.state.isMobileMenuOpen = true ∧
      sidebarShown desyncMenuPage.elements = false) ∧
    ((navLinkClick 10 desyncMenuPage).2 = .normal ∧
      activeSectionIds (clickNavLink 10 desyncMenuPage).elements = ["about"] ∧
      (clickNavLink 10 desyncMenuPage).state.currentSection = some "about" ∧
      (clickNavLink 10 desyncMenuPage).state.isMobileMenuOpen = false ∧
      sidebarShown (clickNavLink 10 desyncMenuPage).elements = true) := by
  decide

end Portfolio
